import Mathlib

/-!
# Verification of the polyTEOS10 seawater polynomial evaluators

Shallow embedding of `polyTEOS10.py` (Roquet et al. 2014 polynomial
expressions for seawater density and specific volume).  The source code is
straight-line floating-point arithmetic; it is embedded here over the real
numbers, with every literal coefficient kept exactly as written in the
source.  A second, Option-valued embedding models the IEEE behaviour that
the source relies on: `none` stands for a non-finite float (NaN or ±Inf),
produced by the square root of a negative number or by a division by zero
and propagated through subsequent arithmetic.
-/

set_option maxHeartbeats 4000000
set_option linter.unusedVariables false

noncomputable section

namespace PolyTEOS10

/-- Salinity reduction constant `SAu = 40.*35.16504/35.` -/
def SAu : ℝ := 40*35.16504/35

/-- Temperature reduction constant `CTu = 40.` -/
def CTu : ℝ := 40

/-- Pressure reduction constant `Zu = 1e4` -/
def Zu : ℝ := 1e4

/-- Salinity offset `deltaS = 32.` -/
def deltaS : ℝ := 32

/-- Reduced salinity root `ss = sqrt((SA+deltaS)/SAu)` (shared by all four evaluators) -/
def ss (SA : ℝ) : ℝ := Real.sqrt ((SA + deltaS)/SAu)

/-- Reduced temperature `tt = CT / CTu` -/
def tt (CT : ℝ) : ℝ := CT / CTu

/-- Reduced pressure `pp = p / Zu` -/
def pp (p : ℝ) : ℝ := p / Zu


namespace Bsq

def R00 : ℝ := 4.6494977072e+01
def R01 : ℝ := -5.2099962525e+00
def R02 : ℝ := 2.2601900708e-01
def R03 : ℝ := 6.4326772569e-02
def R04 : ℝ := 1.5616995503e-02
def R05 : ℝ := -1.7243708991e-03
def R000 : ℝ := 8.0189615746e+02
def R100 : ℝ := 8.6672408165e+02
def R200 : ℝ := -1.7864682637e+03
def R300 : ℝ := 2.0375295546e+03
def R400 : ℝ := -1.2849161071e+03
def R500 : ℝ := 4.3227585684e+02
def R600 : ℝ := -6.0579916612e+01
def R010 : ℝ := 2.6010145068e+01
def R110 : ℝ := -6.5281885265e+01
def R210 : ℝ := 8.1770425108e+01
def R310 : ℝ := -5.6888046321e+01
def R410 : ℝ := 1.7681814114e+01
def R510 : ℝ := -1.9193502195e+00
def R020 : ℝ := -3.7074170417e+01
def R120 : ℝ := 6.1548258127e+01
def R220 : ℝ := -6.0362551501e+01
def R320 : ℝ := 2.9130021253e+01
def R420 : ℝ := -5.4723692739e+00
def R030 : ℝ := 2.1661789529e+01
def R130 : ℝ := -3.3449108469e+01
def R230 : ℝ := 1.9717078466e+01
def R330 : ℝ := -3.1742946532e+00
def R040 : ℝ := -8.3627885467e+00
def R140 : ℝ := 1.1311538584e+01
def R240 : ℝ := -5.3563304045e+00
def R050 : ℝ := 5.4048723791e-01
def R150 : ℝ := 4.8169980163e-01
def R060 : ℝ := -1.9083568888e-01
def R001 : ℝ := 1.9681925209e+01
def R101 : ℝ := -4.2549998214e+01
def R201 : ℝ := 5.0774768218e+01
def R301 : ℝ := -3.0938076334e+01
def R401 : ℝ := 6.6051753097e+00
def R011 : ℝ := -1.3336301113e+01
def R111 : ℝ := -4.4870114575e+00
def R211 : ℝ := 5.0042598061e+00
def R311 : ℝ := -6.5399043664e-01
def R021 : ℝ := 6.7080479603e+00
def R121 : ℝ := 3.5063081279e+00
def R221 : ℝ := -1.8795372996e+00
def R031 : ℝ := -2.4649669534e+00
def R131 : ℝ := -5.5077101279e-01
def R041 : ℝ := 5.5927935970e-01
def R002 : ℝ := 2.0660924175e+00
def R102 : ℝ := -4.9527603989e+00
def R202 : ℝ := 2.5019633244e+00
def R012 : ℝ := 2.0564311499e+00
def R112 : ℝ := -2.1311365518e-01
def R022 : ℝ := -1.2419983026e+00
def R003 : ℝ := -2.3342758797e-02
def R103 : ℝ := -1.8507636718e-02
def R013 : ℝ := 3.7969820455e-01
def ALP000 : ℝ := -6.5025362670e-01
def ALP100 : ℝ := 1.6320471316e+00
def ALP200 : ℝ := -2.0442606277e+00
def ALP300 : ℝ := 1.4222011580e+00
def ALP400 : ℝ := -4.4204535284e-01
def ALP500 : ℝ := 4.7983755487e-02
def ALP010 : ℝ := 1.8537085209e+00
def ALP110 : ℝ := -3.0774129064e+00
def ALP210 : ℝ := 3.0181275751e+00
def ALP310 : ℝ := -1.4565010626e+00
def ALP410 : ℝ := 2.7361846370e-01
def ALP020 : ℝ := -1.6246342147e+00
def ALP120 : ℝ := 2.5086831352e+00
def ALP220 : ℝ := -1.4787808849e+00
def ALP320 : ℝ := 2.3807209899e-01
def ALP030 : ℝ := 8.3627885467e-01
def ALP130 : ℝ := -1.1311538584e+00
def ALP230 : ℝ := 5.3563304045e-01
def ALP040 : ℝ := -6.7560904739e-02
def ALP140 : ℝ := -6.0212475204e-02
def ALP050 : ℝ := 2.8625353333e-02
def ALP001 : ℝ := 3.3340752782e-01
def ALP101 : ℝ := 1.1217528644e-01
def ALP201 : ℝ := -1.2510649515e-01
def ALP301 : ℝ := 1.6349760916e-02
def ALP011 : ℝ := -3.3540239802e-01
def ALP111 : ℝ := -1.7531540640e-01
def ALP211 : ℝ := 9.3976864981e-02
def ALP021 : ℝ := 1.8487252150e-01
def ALP121 : ℝ := 4.1307825959e-02
def ALP031 : ℝ := -5.5927935970e-02
def ALP002 : ℝ := -5.1410778748e-02
def ALP102 : ℝ := 5.3278413794e-03
def ALP012 : ℝ := 6.2099915132e-02
def ALP003 : ℝ := -9.4924551138e-03
def BET000 : ℝ := 1.0783203594e+01
def BET100 : ℝ := -4.4452095908e+01
def BET200 : ℝ := 7.6048755820e+01
def BET300 : ℝ := -6.3944280668e+01
def BET400 : ℝ := 2.6890441098e+01
def BET500 : ℝ := -4.5221697773e+00
def BET010 : ℝ := -8.1219372432e-01
def BET110 : ℝ := 2.0346663041e+00
def BET210 : ℝ := -2.1232895170e+00
def BET310 : ℝ := 8.7994140485e-01
def BET410 : ℝ := -1.1939638360e-01
def BET020 : ℝ := 7.6574242289e-01
def BET120 : ℝ := -1.5019813020e+00
def BET220 : ℝ := 1.0872489522e+00
def BET320 : ℝ := -2.7233429080e-01
def BET030 : ℝ := -4.1615152308e-01
def BET130 : ℝ := 4.9061350869e-01
def BET230 : ℝ := -1.1847737788e-01
def BET040 : ℝ := 1.4073062708e-01
def BET140 : ℝ := -1.3327978879e-01
def BET050 : ℝ := 5.9929880134e-03
def BET001 : ℝ := -5.2937873009e-01
def BET101 : ℝ := 1.2634116779e+00
def BET201 : ℝ := -1.1547328025e+00
def BET301 : ℝ := 3.2870876279e-01
def BET011 : ℝ := -5.5824407214e-02
def BET111 : ℝ := 1.2451933313e-01
def BET211 : ℝ := -2.4409539932e-02
def BET021 : ℝ := 4.3623149752e-02
def BET121 : ℝ := -4.6767901790e-02
def BET031 : ℝ := -6.8523260060e-03
def BET002 : ℝ := -6.1618945251e-02
def BET102 : ℝ := 6.2255521644e-02
def BET012 : ℝ := -2.6514181169e-03
def BET003 : ℝ := -2.3025968587e-04

def r0 (pp : ℝ) : ℝ := ( ( ( ( ( R05*pp + R04 )*pp + R03 )*pp + R02 )*pp + R01 )*pp + R00 )*pp
def rz3 (ss tt : ℝ) : ℝ := R013*tt + R103*ss + R003
def rz2 (ss tt : ℝ) : ℝ := (R022*tt+R112*ss+R012)*tt+(R202*ss+R102)*ss+R002
def rz1 (ss tt : ℝ) : ℝ :=
  (((R041*tt+R131*ss+R031)*tt + (R221*ss+R121)*ss+R021)*tt +
  ((R311*ss+R211)*ss+R111)*ss+R011)*tt + (((R401*ss+R301)*ss+R201)*ss+R101)*ss+R001
def rz0 (ss tt : ℝ) : ℝ :=
  (((((R060*tt+R150*ss+R050)*tt + (R240*ss+R140)*ss+R040)*tt +
  ((R330*ss+R230)*ss+R130)*ss+R030)*tt + (((R420*ss+R320)*ss+R220)*ss+R120)*ss+R020)*tt +
  ((((R510*ss+R410)*ss+R310)*ss+R210)*ss+R110)*ss+R010)*tt +
  (((((R600*ss+R500)*ss+R400)*ss+R300)*ss+R200)*ss+R100)*ss+R000
def r (ss tt pp : ℝ) : ℝ := ( ( (rz3 ss tt)*pp + (rz2 ss tt) )*pp + (rz1 ss tt) )*pp + (rz0 ss tt)
def a (ss tt pp : ℝ) : ℝ :=
  ((ALP003*pp + ALP012*tt + ALP102*ss+ALP002)*pp + ((ALP031*tt + ALP121*ss+ALP021)*tt +
  (ALP211*ss+ALP111)*ss+ALP011)*tt + ((ALP301*ss+ALP201)*ss+ALP101)*ss+ALP001)*pp +
  ((((ALP050*tt + ALP140*ss+ALP040)*tt + (ALP230*ss+ALP130)*ss+ALP030)*tt +
  ((ALP320*ss+ALP220)*ss+ALP120)*ss+ALP020)*tt +
  (((ALP410*ss+ALP310)*ss+ALP210)*ss+ALP110)*ss+ALP010)*tt +
  ((((ALP500*ss+ALP400)*ss+ALP300)*ss+ALP200)*ss+ALP100)*ss+ALP000
def b (ss tt pp : ℝ) : ℝ :=
  ((BET003*pp + BET012*tt + BET102*ss+BET002)*pp + ((BET031*tt + BET121*ss+BET021)*tt +
  (BET211*ss+BET111)*ss+BET011)*tt + ((BET301*ss+BET201)*ss+BET101)*ss+BET001)*pp +
  ((((BET050*tt + BET140*ss+BET040)*tt + (BET230*ss+BET130)*ss+BET030)*tt +
  ((BET320*ss+BET220)*ss+BET120)*ss+BET020)*tt +
  (((BET410*ss+BET310)*ss+BET210)*ss+BET110)*ss+BET010)*tt +
  ((((BET500*ss+BET400)*ss+BET300)*ss+BET200)*ss+BET100)*ss+BET000

end Bsq

namespace Stif

def R10 : ℝ := 4.5238001132e-02
def R11 : ℝ := -5.0691457704e-03
def R12 : ℝ := 2.1990865986e-04
def R13 : ℝ := 6.2587720090e-05
def R14 : ℝ := 1.5194795322e-05
def R15 : ℝ := -1.6777531159e-06
def R000 : ℝ := 8.0185969881e+02
def R100 : ℝ := 8.6694399997e+02
def R200 : ℝ := -1.7869886805e+03
def R300 : ℝ := 2.0381548497e+03
def R400 : ℝ := -1.2853207957e+03
def R500 : ℝ := 4.3240996619e+02
def R600 : ℝ := -6.0597695001e+01
def R010 : ℝ := 2.6018938392e+01
def R110 : ℝ := -6.5349779146e+01
def R210 : ℝ := 8.1938301569e+01
def R310 : ℝ := -5.7075042739e+01
def R410 : ℝ := 1.7778970855e+01
def R510 : ℝ := -1.9385269480e+00
def R020 : ℝ := -3.7047586837e+01
def R120 : ℝ := 6.1469677558e+01
def R220 : ℝ := -6.0273564480e+01
def R320 : ℝ := 2.9086147388e+01
def R420 : ℝ := -5.4641145446e+00
def R030 : ℝ := 2.1645370860e+01
def R130 : ℝ := -3.3415215649e+01
def R230 : ℝ := 1.9694119706e+01
def R330 : ℝ := -3.1710494147e+00
def R040 : ℝ := -8.3587258634e+00
def R140 : ℝ := 1.1301873278e+01
def R240 : ℝ := -5.3494903247e+00
def R050 : ℝ := 5.4258499460e-01
def R150 : ℝ := 4.7964098705e-01
def R060 : ℝ := -1.9098981559e-01
def R001 : ℝ := 2.1989266031e+01
def R101 : ℝ := -4.2043785414e+01
def R201 : ℝ := 4.8565183521e+01
def R301 : ℝ := -3.0473875108e+01
def R401 : ℝ := 6.5025796369e+00
def R011 : ℝ := -1.3731593003e+01
def R111 : ℝ := -4.3667263842e+00
def R211 : ℝ := 5.2899298884e+00
def R311 : ℝ := -7.1323826203e-01
def R021 : ℝ := 7.4843325711e+00
def R121 : ℝ := 3.1442996192e+00
def R221 : ℝ := -1.8141771987e+00
def R031 : ℝ := -2.6010182316e+00
def R131 : ℝ := -4.9866739215e-01
def R041 : ℝ := 5.5882364387e-01
def R002 : ℝ := 1.1144125393e+00
def R102 : ℝ := -4.5413502768e+00
def R202 : ℝ := 2.7242121539e+00
def R012 : ℝ := 2.8508446713e+00
def R112 : ℝ := -4.4471361300e-01
def R022 : ℝ := -1.5059302816e+00
def R003 : ℝ := 1.9817079368e-01
def R103 : ℝ := -1.7905369937e-01
def R013 : ℝ := 2.5254165600e-01
def ALP000 : ℝ := -6.5047345980e-01
def ALP100 : ℝ := 1.6337444787e+00
def ALP200 : ℝ := -2.0484575392e+00
def ALP300 : ℝ := 1.4268760685e+00
def ALP400 : ℝ := -4.4447427136e-01
def ALP500 : ℝ := 4.8463173700e-02
def ALP010 : ℝ := 1.8523793418e+00
def ALP110 : ℝ := -3.0734838779e+00
def ALP210 : ℝ := 3.0136782240e+00
def ALP310 : ℝ := -1.4543073694e+00
def ALP410 : ℝ := 2.7320572723e-01
def ALP020 : ℝ := -1.6234028145e+00
def ALP120 : ℝ := 2.5061411737e+00
def ALP220 : ℝ := -1.4770589780e+00
def ALP320 : ℝ := 2.3782870611e-01
def ALP030 : ℝ := 8.3587258634e-01
def ALP130 : ℝ := -1.1301873278e+00
def ALP230 : ℝ := 5.3494903247e-01
def ALP040 : ℝ := -6.7823124325e-02
def ALP140 : ℝ := -5.9955123381e-02
def ALP050 : ℝ := 2.8648472338e-02
def ALP001 : ℝ := 3.4328982507e-01
def ALP101 : ℝ := 1.0916815960e-01
def ALP201 : ℝ := -1.3224824721e-01
def ALP301 : ℝ := 1.7830956551e-02
def ALP011 : ℝ := -3.7421662855e-01
def ALP111 : ℝ := -1.5721498096e-01
def ALP211 : ℝ := 9.0708859933e-02
def ALP021 : ℝ := 1.9507636737e-01
def ALP121 : ℝ := 3.7400054411e-02
def ALP031 : ℝ := -5.5882364387e-02
def ALP002 : ℝ := -7.1271116782e-02
def ALP102 : ℝ := 1.1117840325e-02
def ALP012 : ℝ := 7.5296514078e-02
def ALP003 : ℝ := -6.3135413999e-03
def BET000 : ℝ := 1.0785939671e+01
def BET100 : ℝ := -4.4465045269e+01
def BET200 : ℝ := 7.6072094337e+01
def BET300 : ℝ := -6.3964420131e+01
def BET400 : ℝ := 2.6898783594e+01
def BET500 : ℝ := -4.5234968986e+00
def BET010 : ℝ := -8.1303841476e-01
def BET110 : ℝ := 2.0388435182e+00
def BET210 : ℝ := -2.1302689715e+00
def BET310 : ℝ := 8.8477644261e-01
def BET410 : ℝ := -1.2058930400e-01
def BET020 : ℝ := 7.6476477580e-01
def BET120 : ℝ := -1.4997670675e+00
def BET220 : ℝ := 1.0856114040e+00
def BET320 : ℝ := -2.7192349143e-01
def BET030 : ℝ := -4.1572985119e-01
def BET130 : ℝ := 4.9004223351e-01
def BET230 : ℝ := -1.1835625260e-01
def BET040 : ℝ := 1.4061037779e-01
def BET140 : ℝ := -1.3310958936e-01
def BET050 : ℝ := 5.9673736141e-03
def BET001 : ℝ := -5.2308076768e-01
def BET101 : ℝ := 1.2084313165e+00
def BET201 : ℝ := -1.1374069553e+00
def BET301 : ℝ := 3.2360305476e-01
def BET011 : ℝ := -5.4327900468e-02
def BET111 : ℝ := 1.3162756682e-01
def BET211 : ℝ := -2.6620905846e-02
def BET021 : ℝ := 3.9119281064e-02
def BET121 : ℝ := -4.5141568126e-02
def BET031 : ℝ := -6.2040874705e-03
def BET002 : ℝ := -5.6500454603e-02
def BET102 : ℝ := 6.7785665385e-02
def BET012 : ℝ := -5.5328304955e-03
def BET003 : ℝ := -2.2276668383e-03

def r1 (pp : ℝ) : ℝ := ( ( ( ( ( R15*pp + R14 )*pp + R13 )*pp + R12 )*pp + R11 )*pp + R10 )*pp + 1
def rz3 (ss tt : ℝ) : ℝ := R013*tt + R103*ss + R003
def rz2 (ss tt : ℝ) : ℝ := (R022*tt+R112*ss+R012)*tt+(R202*ss+R102)*ss+R002
def rz1 (ss tt : ℝ) : ℝ :=
  (((R041*tt+R131*ss+R031)*tt + (R221*ss+R121)*ss+R021)*tt +
  ((R311*ss+R211)*ss+R111)*ss+R011)*tt + (((R401*ss+R301)*ss+R201)*ss+R101)*ss+R001
def rz0 (ss tt : ℝ) : ℝ :=
  (((((R060*tt+R150*ss+R050)*tt + (R240*ss+R140)*ss+R040)*tt +
  ((R330*ss+R230)*ss+R130)*ss+R030)*tt + (((R420*ss+R320)*ss+R220)*ss+R120)*ss+R020)*tt +
  ((((R510*ss+R410)*ss+R310)*ss+R210)*ss+R110)*ss+R010)*tt +(((((R600*ss+R500)*ss+R400)*ss+R300)*ss+R200)*ss+R100)*ss+R000
def rdot (ss tt pp : ℝ) : ℝ :=
  ( ( (rz3 ss tt)*pp + (rz2 ss tt) )*pp + (rz1 ss tt) )*pp + (rz0 ss tt)
-- aRaw is the polynomial factor multiplied by r1 in the source assignment of a
def aRaw (ss tt pp : ℝ) : ℝ :=
  ((ALP003*pp + ALP012*tt + ALP102*ss+ALP002)*pp + ((ALP031*tt + ALP121*ss+ALP021)*tt +
  (ALP211*ss+ALP111)*ss+ALP011)*tt + ((ALP301*ss+ALP201)*ss+ALP101)*ss+ALP001)*pp +
  ((((ALP050*tt + ALP140*ss+ALP040)*tt + (ALP230*ss+ALP130)*ss+ALP030)*tt +
  ((ALP320*ss+ALP220)*ss+ALP120)*ss+ALP020)*tt +
  (((ALP410*ss+ALP310)*ss+ALP210)*ss+ALP110)*ss+ALP010)*tt +
  ((((ALP500*ss+ALP400)*ss+ALP300)*ss+ALP200)*ss+ALP100)*ss+ALP000
-- bRaw is the first assignment of b in the source, before the r1 and ss scaling
def bRaw (ss tt pp : ℝ) : ℝ :=
  ((BET003*pp + BET012*tt + BET102*ss+BET002)*pp + ((BET031*tt + BET121*ss+BET021)*tt +
  (BET211*ss+BET111)*ss+BET011)*tt + ((BET301*ss+BET201)*ss+BET101)*ss+BET001)*pp +
  ((((BET050*tt + BET140*ss+BET040)*tt + (BET230*ss+BET130)*ss+BET030)*tt +
  ((BET320*ss+BET220)*ss+BET120)*ss+BET020)*tt +
  (((BET410*ss+BET310)*ss+BET210)*ss+BET110)*ss+BET010)*tt +
  ((((BET500*ss+BET400)*ss+BET300)*ss+BET200)*ss+BET100)*ss+BET000

end Stif

namespace V55

def V00 : ℝ := -4.4015007269e-05
def V01 : ℝ := 6.9232335784e-06
def V02 : ℝ := -7.5004675975e-07
def V03 : ℝ := 1.7009109288e-08
def V04 : ℝ := -1.6884162004e-08
def V05 : ℝ := 1.9613503930e-09
def V000 : ℝ := 1.0772899069e-03
def V100 : ℝ := -3.1263658781e-04
def V200 : ℝ := 6.7615860683e-04
def V300 : ℝ := -8.6127884515e-04
def V400 : ℝ := 5.9010812596e-04
def V500 : ℝ := -2.1503943538e-04
def V600 : ℝ := 3.2678954455e-05
def V010 : ℝ := -1.4949652640e-05
def V110 : ℝ := 3.1866349188e-05
def V210 : ℝ := -3.8070687610e-05
def V310 : ℝ := 2.9818473563e-05
def V410 : ℝ := -1.0011321965e-05
def V510 : ℝ := 1.0751931163e-06
def V020 : ℝ := 2.7546851539e-05
def V120 : ℝ := -3.6597334199e-05
def V220 : ℝ := 3.4489154625e-05
def V320 : ℝ := -1.7663254122e-05
def V420 : ℝ := 3.5965131935e-06
def V030 : ℝ := -1.6506828994e-05
def V130 : ℝ := 2.4412359055e-05
def V230 : ℝ := -1.4606740723e-05
def V330 : ℝ := 2.3293406656e-06
def V040 : ℝ := 6.7896174634e-06
def V140 : ℝ := -8.7951832993e-06
def V240 : ℝ := 4.4249040774e-06
def V050 : ℝ := -7.2535743349e-07
def V150 : ℝ := -3.4680559205e-07
def V060 : ℝ := 1.9041365570e-07
def V001 : ℝ := -1.6889436589e-05
def V101 : ℝ := 2.1106556158e-05
def V201 : ℝ := -2.1322804368e-05
def V301 : ℝ := 1.7347655458e-05
def V401 : ℝ := -4.3209400767e-06
def V011 : ℝ := 1.5355844621e-05
def V111 : ℝ := 2.0914122241e-06
def V211 : ℝ := -5.7751479725e-06
def V311 : ℝ := 1.0767234341e-06
def V021 : ℝ := -9.6659393016e-06
def V121 : ℝ := -7.0686982208e-07
def V221 : ℝ := 1.4488066593e-06
def V031 : ℝ := 3.1134283336e-06
def V131 : ℝ := 7.9562529879e-08
def V041 : ℝ := -5.6590253863e-07
def V002 : ℝ := 1.0500241168e-06
def V102 : ℝ := 1.9600661704e-06
def V202 : ℝ := -2.1666693382e-06
def V012 : ℝ := -3.8541359685e-06
def V112 : ℝ := 1.0157632247e-06
def V022 : ℝ := 1.7178343158e-06
def V003 : ℝ := -4.1503454190e-07
def V103 : ℝ := 3.5627020989e-07
def V013 : ℝ := -1.1293871415e-07
def A000 : ℝ := -3.7374131601e-07
def A100 : ℝ := 7.9665872970e-07
def A200 : ℝ := -9.5176719025e-07
def A300 : ℝ := 7.4546183908e-07
def A400 : ℝ := -2.5028304913e-07
def A500 : ℝ := 2.6879827908e-08
def A010 : ℝ := 1.3773425769e-06
def A110 : ℝ := -1.8298667100e-06
def A210 : ℝ := 1.7244577313e-06
def A310 : ℝ := -8.8316270612e-07
def A410 : ℝ := 1.7982565968e-07
def A020 : ℝ := -1.2380121746e-06
def A120 : ℝ := 1.8309269291e-06
def A220 : ℝ := -1.0955055542e-06
def A320 : ℝ := 1.7470054992e-07
def A030 : ℝ := 6.7896174634e-07
def A130 : ℝ := -8.7951832993e-07
def A230 : ℝ := 4.4249040774e-07
def A040 : ℝ := -9.0669679187e-08
def A140 : ℝ := -4.3350699006e-08
def A050 : ℝ := 2.8562048354e-08
def A001 : ℝ := 3.8389611552e-07
def A101 : ℝ := 5.2285305603e-08
def A201 : ℝ := -1.4437869931e-07
def A301 : ℝ := 2.6918085852e-08
def A011 : ℝ := -4.8329696508e-07
def A111 : ℝ := -3.5343491104e-08
def A211 : ℝ := 7.2440332965e-08
def A021 : ℝ := 2.3350712502e-07
def A121 : ℝ := 5.9671897409e-09
def A031 : ℝ := -5.6590253863e-08
def A002 : ℝ := -9.6353399212e-08
def A102 : ℝ := 2.5394080617e-08
def A012 : ℝ := 8.5891715792e-08
def A003 : ℝ := -2.8234678537e-09
def B000 : ℝ := 3.8896161405e-06
def B100 : ℝ := -1.6824629831e-05
def B200 : ℝ := 3.2146372768e-05
def B300 : ℝ := -2.9366928644e-05
def B400 : ℝ := 1.3376886957e-05
def B500 : ℝ := -2.4394186796e-06
def B010 : ℝ := -3.9645988657e-07
def B110 : ℝ := 9.4730026353e-07
def B210 : ℝ := -1.1129447472e-06
def B310 : ℝ := 4.9821679257e-07
def B410 : ℝ := -6.6884182186e-08
def B020 : ℝ := 4.5531965020e-07
def B120 : ℝ := -8.5818216892e-07
def B220 : ℝ := 6.5926332049e-07
def B320 : ℝ := -1.7898168433e-07
def B030 : ℝ := -3.0372230734e-07
def B130 : ℝ := 3.6345467351e-07
def B230 : ℝ := -8.6940314119e-08
def B040 : ℝ := 1.0942381108e-07
def B140 : ℝ := -1.1010341714e-07
def B050 : ℝ := 4.3147241272e-09
def B001 : ℝ := -2.6259371009e-07
def B101 : ℝ := 5.3056825249e-07
def B201 : ℝ := -6.4748391553e-07
def B301 : ℝ := 2.1503303093e-07
def B011 : ℝ := -2.6019957550e-08
def B111 : ℝ := 1.4370108710e-07
def B211 : ℝ := -4.0187626893e-08
def B021 : ℝ := 8.7944033950e-09
def B121 : ℝ := -3.6050174460e-08
def B031 : ℝ := -9.8986399054e-10
def B002 : ℝ := -2.4385837456e-08
def B102 : ℝ := 5.3912512852e-08
def B012 : ℝ := -1.2637449319e-08
def B003 : ℝ := -4.4324765969e-09

def v0 (pp : ℝ) : ℝ := (((((V05*pp+V04)*pp+V03 )*pp+V02 )*pp+V01)*pp+V00)*pp
def vp3 (ss tt : ℝ) : ℝ := V013*tt+V103*ss+V003
def vp2 (ss tt : ℝ) : ℝ := (V022*tt+V112*ss+V012)*tt+(V202*ss+V102)*ss+V002
def vp1 (ss tt : ℝ) : ℝ :=
  (((V041*tt+V131*ss+V031)*tt + (V221*ss+V121)*ss+V021)*tt +
  ((V311*ss+V211)*ss+V111)*ss+V011)*tt + (((V401*ss+V301)*ss+V201)*ss+V101)*ss+V001
def vp0 (ss tt : ℝ) : ℝ :=
  (((((V060*tt+V150*ss+V050)*tt + (V240*ss+V140)*ss+V040)*tt +
  ((V330*ss+V230)*ss+V130)*ss+V030)*tt + (((V420*ss+V320)*ss+V220)*ss+V120)*ss+V020)*tt +
  ((((V510*ss+V410)*ss+V310)*ss+V210)*ss+V110)*ss+V010)*tt +(((((V600*ss+V500)*ss+V400)*ss+V300)*ss+V200)*ss+V100)*ss+V000
def delta (ss tt pp : ℝ) : ℝ :=
  ( ( (vp3 ss tt)*pp + (vp2 ss tt) )*pp + (vp1 ss tt) )*pp + (vp0 ss tt)
def ap3 (ss tt : ℝ) : ℝ := A003
def ap2 (ss tt : ℝ) : ℝ := A012*tt + A102*ss+A002
def ap1 (ss tt : ℝ) : ℝ :=
  ((A031*tt+A121*ss+A021)*tt + (A211*ss+A111)*ss+A011)*tt + ((A301*ss+A201)*ss+A101)*ss+A001
def ap0 (ss tt : ℝ) : ℝ :=
  ((((A050*tt+A140*ss+A040)*tt + (A230*ss+A130)*ss+A030)*tt +
  ((A320*ss+A220)*ss+A120)*ss+A020)*tt + (((A410*ss+A310)*ss+A210)*ss+A110)*ss+A010)*tt +
  ((((A500*ss+A400)*ss+A300)*ss+A200)*ss+A100)*ss+A000
def a (ss tt pp : ℝ) : ℝ := ( ( (ap3 ss tt)*pp + (ap2 ss tt) )*pp + (ap1 ss tt) )*pp + (ap0 ss tt)
def bp3 (ss tt : ℝ) : ℝ := B003
def bp2 (ss tt : ℝ) : ℝ := B012*tt + B102*ss+B002
def bp1 (ss tt : ℝ) : ℝ :=
  ((B031*tt+B121*ss+B021)*tt + (B211*ss+B111)*ss+B011)*tt + ((B301*ss+B201)*ss+B101)*ss+B001
def bp0 (ss tt : ℝ) : ℝ :=
  ((((B050*tt+B140*ss+B040)*tt + (B230*ss+B130)*ss+B030)*tt +
  ((B320*ss+B220)*ss+B120)*ss+B020)*tt + (((B410*ss+B310)*ss+B210)*ss+B110)*ss+B010)*tt +
  ((((B500*ss+B400)*ss+B300)*ss+B200)*ss+B100)*ss+B000
def b (ss tt pp : ℝ) : ℝ := ( ( (bp3 ss tt)*pp + (bp2 ss tt) )*pp + (bp1 ss tt) )*pp + (bp0 ss tt)

end V55

namespace V75

def V00 : ℝ := -4.4015007269e-05
def V01 : ℝ := 6.9232335784e-06
def V02 : ℝ := -7.5004675975e-07
def V03 : ℝ := 1.7009109288e-08
def V04 : ℝ := -1.6884162004e-08
def V05 : ℝ := 1.9613503930e-09
def V000 : ℝ := 1.0769995862e-03
def V100 : ℝ := -3.1038981976e-04
def V200 : ℝ := 6.6928067038e-04
def V300 : ℝ := -8.5047933937e-04
def V400 : ℝ := 5.8086069943e-04
def V500 : ℝ := -2.1092370507e-04
def V600 : ℝ := 3.1932457305e-05
def V010 : ℝ := -1.5649734675e-05
def V110 : ℝ := 3.5009599764e-05
def V210 : ℝ := -4.3592678561e-05
def V310 : ℝ := 3.4532461828e-05
def V410 : ℝ := -1.1959409788e-05
def V510 : ℝ := 1.3864594581e-06
def V020 : ℝ := 2.7762106484e-05
def V120 : ℝ := -3.7435842344e-05
def V220 : ℝ := 3.5907822760e-05
def V320 : ℝ := -1.8698584187e-05
def V420 : ℝ := 3.8595339244e-06
def V030 : ℝ := -1.6521159259e-05
def V130 : ℝ := 2.4141479483e-05
def V230 : ℝ := -1.4353633048e-05
def V330 : ℝ := 2.2863324556e-06
def V040 : ℝ := 6.9111322702e-06
def V140 : ℝ := -8.7595873154e-06
def V240 : ℝ := 4.3703680598e-06
def V050 : ℝ := -8.0539615540e-07
def V150 : ℝ := -3.3052758900e-07
def V060 : ℝ := 2.0543094268e-07
def V001 : ℝ := -1.6784136540e-05
def V101 : ℝ := 2.4262468747e-05
def V201 : ℝ := -3.4792460974e-05
def V301 : ℝ := 3.7470777305e-05
def V401 : ℝ := -1.7322218612e-05
def V501 : ℝ := 3.0927427253e-06
def V011 : ℝ := 1.8505765429e-05
def V111 : ℝ := -9.5677088156e-06
def V211 : ℝ := 1.1100834765e-05
def V311 : ℝ := -9.8447117844e-06
def V411 : ℝ := 2.5909225260e-06
def V021 : ℝ := -1.1716606853e-05
def V121 : ℝ := -2.3678308361e-07
def V221 : ℝ := 2.9283346295e-06
def V321 : ℝ := -4.8826139200e-07
def V031 : ℝ := 7.9279656173e-06
def V131 : ℝ := -3.4558773655e-06
def V231 : ℝ := 3.1655306078e-07
def V041 : ℝ := -3.4102187482e-06
def V141 : ℝ := 1.2956717783e-06
def V051 : ℝ := 5.0736766814e-07
def V002 : ℝ := 3.0623833435e-06
def V102 : ℝ := -5.8484432984e-07
def V202 : ℝ := -4.8122251597e-06
def V302 : ℝ := 4.9263106998e-06
def V402 : ℝ := -1.7811974727e-06
def V012 : ℝ := -1.1736386731e-06
def V112 : ℝ := -5.5699154557e-06
def V212 : ℝ := 5.4620748834e-06
def V312 : ℝ := -1.3544185627e-06
def V022 : ℝ := 2.1305028740e-06
def V122 : ℝ := 3.9137387080e-07
def V222 : ℝ := -6.5731104067e-07
def V032 : ℝ := -4.6132540037e-07
def V132 : ℝ := 7.7618888092e-09
def V042 : ℝ := -6.3352916514e-08
def V003 : ℝ := -3.8088938393e-07
def V103 : ℝ := 3.6310188515e-07
def V203 : ℝ := 1.6746303780e-08
def V013 : ℝ := -3.6527006553e-07
def V113 : ℝ := -2.7295696237e-07
def V023 : ℝ := 2.8695905159e-07
def V004 : ℝ := 8.8302421514e-08
def V104 : ℝ := -1.1147125423e-07
def V014 : ℝ := 3.1454099902e-07
def V005 : ℝ := 4.2369007180e-09
def A000 : ℝ := -3.9124336688e-07
def A100 : ℝ := 8.7523999410e-07
def A200 : ℝ := -1.0898169640e-06
def A300 : ℝ := 8.6331154570e-07
def A400 : ℝ := -2.9898524469e-07
def A500 : ℝ := 3.4661486454e-08
def A010 : ℝ := 1.3881053242e-06
def A110 : ℝ := -1.8717921172e-06
def A210 : ℝ := 1.7953911380e-06
def A310 : ℝ := -9.3492920933e-07
def A410 : ℝ := 1.9297669622e-07
def A020 : ℝ := -1.2390869444e-06
def A120 : ℝ := 1.8106109612e-06
def A220 : ℝ := -1.0765224786e-06
def A320 : ℝ := 1.7147493417e-07
def A030 : ℝ := 6.9111322702e-07
def A130 : ℝ := -8.7595873154e-07
def A230 : ℝ := 4.3703680598e-07
def A040 : ℝ := -1.0067451943e-07
def A140 : ℝ := -4.1315948624e-08
def A050 : ℝ := 3.0814641402e-08
def A001 : ℝ := 4.6264413572e-07
def A101 : ℝ := -2.3919272039e-07
def A201 : ℝ := 2.7752086911e-07
def A301 : ℝ := -2.4611779461e-07
def A401 : ℝ := 6.4773063150e-08
def A011 : ℝ := -5.8583034263e-07
def A111 : ℝ := -1.1839154180e-08
def A211 : ℝ := 1.4641673148e-07
def A311 : ℝ := -2.4413069600e-08
def A021 : ℝ := 5.9459742130e-07
def A121 : ℝ := -2.5919080242e-07
def A221 : ℝ := 2.3741479559e-08
def A031 : ℝ := -3.4102187482e-07
def A131 : ℝ := 1.2956717783e-07
def A041 : ℝ := 6.3420958518e-08
def A002 : ℝ := -2.9340966828e-08
def A102 : ℝ := -1.3924788639e-07
def A202 : ℝ := 1.3655187208e-07
def A302 : ℝ := -3.3860464067e-08
def A012 : ℝ := 1.0652514370e-07
def A112 : ℝ := 1.9568693540e-08
def A212 : ℝ := -3.2865552033e-08
def A022 : ℝ := -3.4599405028e-08
def A122 : ℝ := 5.8214166069e-10
def A032 : ℝ := -6.3352916514e-09
def A003 : ℝ := -9.1317516382e-09
def A103 : ℝ := -6.8239240593e-09
def A013 : ℝ := 1.4347952579e-08
def A004 : ℝ := 7.8635249756e-09
def B000 : ℝ := 3.8616633493e-06
def B100 : ℝ := -1.6653488424e-05
def B200 : ℝ := 3.1743292000e-05
def B300 : ℝ := -2.8906727363e-05
def B400 : ℝ := 1.3120861084e-05
def B500 : ℝ := -2.3836941584e-06
def B010 : ℝ := -4.3556611614e-07
def B110 : ℝ := 1.0847021286e-06
def B210 : ℝ := -1.2888896515e-06
def B310 : ℝ := 5.9516403589e-07
def B410 : ℝ := -8.6247024451e-08
def B020 : ℝ := 4.6575180991e-07
def B120 : ℝ := -8.9348241648e-07
def B220 : ℝ := 6.9790598120e-07
def B320 : ℝ := -1.9207099914e-07
def B030 : ℝ := -3.0035220418e-07
def B130 : ℝ := 3.5715667939e-07
def B230 : ℝ := -8.5335075632e-08
def B040 : ℝ := 1.0898094956e-07
def B140 : ℝ := -1.0874641554e-07
def B050 : ℝ := 4.1122040579e-09
def B001 : ℝ := -3.0185747199e-07
def B101 : ℝ := 8.6572923996e-07
def B201 : ℝ := -1.3985593422e-06
def B301 : ℝ := 8.6204601419e-07
def B401 : ℝ := -1.9238922270e-07
def B011 : ℝ := 1.1903505888e-07
def B111 : ℝ := -2.7621838107e-07
def B211 : ℝ := 3.6744403581e-07
def B311 : ℝ := -1.2893812777e-07
def B021 : ℝ := 2.9458973764e-09
def B121 : ℝ := -7.2864777086e-08
def B221 : ℝ := 1.8223868848e-08
def B031 : ℝ := 4.2995723805e-08
def B131 : ℝ := -7.8766845761e-09
def B041 : ℝ := -1.6119885062e-08
def B002 : ℝ := 7.2762435164e-09
def B102 : ℝ := 1.1974099887e-07
def B202 : ℝ := -1.8386962715e-07
def B302 : ℝ := 8.8641889138e-08
def B012 : ℝ := 6.9297177307e-08
def B112 : ℝ := -1.3591099350e-07
def B212 : ℝ := 5.0552320246e-08
def B022 : ℝ := -4.8692129590e-09
def B122 : ℝ := 1.6355652107e-08
def B032 : ℝ := -9.6568249433e-11
def B003 : ℝ := -4.5174717490e-09
def B103 : ℝ := -4.1669270980e-10
def B013 : ℝ := 3.3959486762e-09
def B004 : ℝ := 1.3868510806e-09

def v0 (pp : ℝ) : ℝ := (((((V05*pp+V04)*pp+V03 )*pp+V02 )*pp+V01)*pp+V00)*pp
def vp5 (ss tt : ℝ) : ℝ := V005
def vp4 (ss tt : ℝ) : ℝ := V014*tt + V104*ss + V004
def vp3 (ss tt : ℝ) : ℝ := ( V023*tt + V113*ss + V013 )*tt + ( V203*ss + V103 )*ss + V003
def vp2 (ss tt : ℝ) : ℝ :=
  ( ( ( V042*tt + V132*ss + V032 )*tt + ( V222*ss + V122 )*ss + V022 )*tt + ( ( V312*ss +
  V212 )*ss + V112 )*ss + V012 )*tt + ( ( ( V402*ss + V302 )*ss + V202 )*ss + V102 )*ss + V002
def vp1 (ss tt : ℝ) : ℝ :=
  ( ( ( ( V051*tt + V141*ss + V041 )*tt + ( V231*ss + V131 )*ss + V031 )*tt + ( ( V321*ss +
  V221 )*ss + V121 )*ss + V021 )*tt + ( ( ( V411*ss + V311 )*ss + V211 )*ss + V111 )*ss +
  V011 )*tt + ( ( ( ( V501*ss + V401 )*ss + V301 )*ss + V201 )*ss + V101 )*ss + V001
def vp0 (ss tt : ℝ) : ℝ :=
  ( ( ( ( ( V060*tt + V150*ss + V050 )*tt + ( V240*ss + V140 )*ss + V040 )*tt + ( ( V330*ss +
  V230 )*ss + V130 )*ss + V030 )*tt + ( ( ( V420*ss + V320 )*ss + V220 )*ss + V120 )*ss +
  V020 )*tt + ( ( ( ( V510*ss + V410 )*ss + V310 )*ss + V210 )*ss + V110 )*ss + V010 )*tt +
  ((((( V600*ss + V500 )*ss + V400 )*ss + V300 )*ss + V200 )*ss + V100 )*ss + V000
def delta (ss tt pp : ℝ) : ℝ :=
  ( ( ( ( (vp5 ss tt)*pp + (vp4 ss tt) )*pp + (vp3 ss tt) )*pp + (vp2 ss tt) )*pp +
  (vp1 ss tt) )*pp + (vp0 ss tt)
def ap4 (ss tt : ℝ) : ℝ := A004
def ap3 (ss tt : ℝ) : ℝ := A013*tt+A103*ss+A003
def ap2 (ss tt : ℝ) : ℝ :=
  ((A032*tt+A122*ss+A022)*tt + (A212*ss+A112)*ss+A012)*tt + ((A302*ss+A202)*ss+A102)*ss+A002
def ap1 (ss tt : ℝ) : ℝ :=
  (((A041*tt+A131*ss+A031)*tt + (A221*ss+A121)*ss+A021)*tt +
  ((A311*ss+A211)*ss+A111)*ss+A011)*tt + (((A401*ss+A301)*ss+A201)*ss+A101)*ss+A001
def ap0 (ss tt : ℝ) : ℝ :=
  ((((A050*tt+A140*ss+A040)*tt + (A230*ss+A130)*ss+A030)*tt +
  ((A320*ss+A220)*ss+A120)*ss+A020)*tt + (((A410*ss+A310)*ss+A210)*ss+A110)*ss+A010)*tt +
  ((((A500*ss+A400)*ss+A300)*ss+A200)*ss+A100)*ss+A000
def a (ss tt pp : ℝ) : ℝ :=
  ( ( ( (ap4 ss tt)*pp + (ap3 ss tt) )*pp + (ap2 ss tt) )*pp + (ap1 ss tt) )*pp + (ap0 ss tt)
def bp4 (ss tt : ℝ) : ℝ := B004
def bp3 (ss tt : ℝ) : ℝ := B013*tt+B103*ss+B003
def bp2 (ss tt : ℝ) : ℝ :=
  ((B032*tt+B122*ss+B022)*tt + (B212*ss+B112)*ss+B012)*tt + ((B302*ss+B202)*ss+B102)*ss+B002
def bp1 (ss tt : ℝ) : ℝ :=
  (((B041*tt+B131*ss+B031)*tt + (B221*ss+B121)*ss+B021)*tt +
  ((B311*ss+B211)*ss+B111)*ss+B011)*tt + (((B401*ss+B301)*ss+B201)*ss+B101)*ss+B001
def bp0 (ss tt : ℝ) : ℝ :=
  ((((B050*tt+B140*ss+B040)*tt + (B230*ss+B130)*ss+B030)*tt +
  ((B320*ss+B220)*ss+B120)*ss+B020)*tt + (((B410*ss+B310)*ss+B210)*ss+B110)*ss+B010)*tt +
  ((((B500*ss+B400)*ss+B300)*ss+B200)*ss+B100)*ss+B000
def b (ss tt pp : ℝ) : ℝ :=
  ( ( ( (bp4 ss tt)*pp + (bp3 ss tt) )*pp + (bp2 ss tt) )*pp + (bp1 ss tt) )*pp + (bp0 ss tt)

end V75


/-- Output tuple of `polyTEOS10_bsq`: `(rho, a, b, r0, r)` -/
structure BsqOut where
  rho : ℝ
  a : ℝ
  b : ℝ
  r0 : ℝ
  r : ℝ

/-- Output tuple of `polyTEOS10_stif`: `(rho, a, b, r1, rdot)` -/
structure StifOut where
  rho : ℝ
  a : ℝ
  b : ℝ
  r1 : ℝ
  rdot : ℝ

/-- Output tuple of `polyTEOS10_55t` and `polyTEOS10_75t`:
`(specvol, alpha, beta, v0, delta)` -/
structure VolOut where
  specvol : ℝ
  alpha : ℝ
  beta : ℝ
  v0 : ℝ
  delta : ℝ

/-- In-situ density, 55-term Boussinesq form: returns `(rho, a, b, r0, r)`.
Mirrors `polyTEOS10_bsq`: `rho = r + r0`, `b` is the raw polynomial divided
by `ss` as a final step. -/
def polyTEOS10_bsq (SA CT p : ℝ) : BsqOut :=
  let s := ss SA
  let t := tt CT
  let z := pp p
  { rho := Bsq.r s t z + Bsq.r0 z
    a := Bsq.a s t z
    b := Bsq.b s t z / s
    r0 := Bsq.r0 z
    r := Bsq.r s t z }

/-- In-situ density, 55-term stiffened form: returns `(rho, a, b, r1, rdot)`.
Mirrors `polyTEOS10_stif`: `rho = r1 * rdot`, `a = r1 * aRaw`,
`b = bRaw * r1 / ss`. -/
def polyTEOS10_stif (SA CT p : ℝ) : StifOut :=
  let s := ss SA
  let t := tt CT
  let z := pp p
  { rho := Stif.r1 z * Stif.rdot s t z
    a := Stif.r1 z * Stif.aRaw s t z
    b := Stif.bRaw s t z * Stif.r1 z / s
    r1 := Stif.r1 z
    rdot := Stif.rdot s t z }

/-- Specific volume, 55-term polynomial: returns `(specvol, alpha, beta, v0, delta)`.
Mirrors `polyTEOS10_55t`: `specvol = v0 + delta`, `alpha = a / specvol`,
`beta = b / ss / specvol`. -/
def polyTEOS10_55t (SA CT p : ℝ) : VolOut :=
  let s := ss SA
  let t := tt CT
  let z := pp p
  let specvol := V55.v0 z + V55.delta s t z
  { specvol := specvol
    alpha := V55.a s t z / specvol
    beta := V55.b s t z / s / specvol
    v0 := V55.v0 z
    delta := V55.delta s t z }

/-- Specific volume, 75-term polynomial: returns `(specvol, alpha, beta, v0, delta)`.
Mirrors `polyTEOS10_75t`. -/
def polyTEOS10_75t (SA CT p : ℝ) : VolOut :=
  let s := ss SA
  let t := tt CT
  let z := pp p
  let specvol := V75.v0 z + V75.delta s t z
  { specvol := specvol
    alpha := V75.a s t z / specvol
    beta := V75.b s t z / s / specvol
    v0 := V75.v0 z
    delta := V75.delta s t z }

/-!
## IEEE float abstraction

`Option ℝ` models a float value that is either a finite real (`some x`) or
non-finite — NaN or ±Inf (`none`).  `npy.sqrt` of a negative argument is
NaN; a division by zero is ±Inf or NaN; every arithmetic operation
propagates non-finiteness.  Real-to-float rounding is abstracted away
(values are exact reals), which is faithful for the finiteness questions
these definitions are used for. -/

/-- Float semantics of the reduced salinity root: NaN (`none`) iff the
argument of the square root is negative. -/
def ssF (SA : ℝ) : Option ℝ :=
  if (SA + deltaS)/SAu < 0 then none else some (Real.sqrt ((SA + deltaS)/SAu))

/-- Float semantics of `rho` from `polyTEOS10_bsq` (polynomial in `ss`: no division). -/
def bsqRhoF (SA CT p : ℝ) : Option ℝ :=
  (ssF SA).map fun s => Bsq.r s (tt CT) (pp p) + Bsq.r0 (pp p)

/-- Float semantics of `a` from `polyTEOS10_bsq`. -/
def bsqAF (SA CT p : ℝ) : Option ℝ :=
  (ssF SA).map fun s => Bsq.a s (tt CT) (pp p)

/-- Float semantics of `b` from `polyTEOS10_bsq`: the final step divides by `ss`. -/
def bsqBF (SA CT p : ℝ) : Option ℝ :=
  (ssF SA).bind fun s => if s = 0 then none else some (Bsq.b s (tt CT) (pp p) / s)

/-- Float semantics of `r0` from `polyTEOS10_bsq`: a polynomial in the reduced
pressure alone, never non-finite. -/
def bsqR0F (p : ℝ) : Option ℝ := some (Bsq.r0 (pp p))

/-- Float semantics of `r` from `polyTEOS10_bsq`. -/
def bsqRF (SA CT p : ℝ) : Option ℝ :=
  (ssF SA).map fun s => Bsq.r s (tt CT) (pp p)

/-- Float semantics of `rho` from `polyTEOS10_stif`. -/
def stifRhoF (SA CT p : ℝ) : Option ℝ :=
  (ssF SA).map fun s => Stif.r1 (pp p) * Stif.rdot s (tt CT) (pp p)

/-- Float semantics of `a` from `polyTEOS10_stif`. -/
def stifAF (SA CT p : ℝ) : Option ℝ :=
  (ssF SA).map fun s => Stif.r1 (pp p) * Stif.aRaw s (tt CT) (pp p)

/-- Float semantics of `b` from `polyTEOS10_stif`: the final step divides by `ss`. -/
def stifBF (SA CT p : ℝ) : Option ℝ :=
  (ssF SA).bind fun s =>
    if s = 0 then none else some (Stif.bRaw s (tt CT) (pp p) * Stif.r1 (pp p) / s)

/-- Float semantics of `r1` from `polyTEOS10_stif`: pressure-only, never non-finite. -/
def stifR1F (p : ℝ) : Option ℝ := some (Stif.r1 (pp p))

/-- Float semantics of `rdot` from `polyTEOS10_stif`. -/
def stifRdotF (SA CT p : ℝ) : Option ℝ :=
  (ssF SA).map fun s => Stif.rdot s (tt CT) (pp p)

/-- Float semantics of `specvol` from `polyTEOS10_55t`. -/
def v55SpecvolF (SA CT p : ℝ) : Option ℝ :=
  (ssF SA).map fun s => V55.v0 (pp p) + V55.delta s (tt CT) (pp p)

/-- Float semantics of `delta` from `polyTEOS10_55t`. -/
def v55DeltaF (SA CT p : ℝ) : Option ℝ :=
  (ssF SA).map fun s => V55.delta s (tt CT) (pp p)

/-- Float semantics of `alpha` from `polyTEOS10_55t`: divides by `specvol`. -/
def v55AlphaF (SA CT p : ℝ) : Option ℝ :=
  (ssF SA).bind fun s =>
    if V55.v0 (pp p) + V55.delta s (tt CT) (pp p) = 0 then none
    else some (V55.a s (tt CT) (pp p) / (V55.v0 (pp p) + V55.delta s (tt CT) (pp p)))

/-- Float semantics of `beta` from `polyTEOS10_55t`: divides by `ss`, then by
`specvol`. -/
def v55BetaF (SA CT p : ℝ) : Option ℝ :=
  (ssF SA).bind fun s =>
    if s = 0 then none
    else if V55.v0 (pp p) + V55.delta s (tt CT) (pp p) = 0 then none
    else some (V55.b s (tt CT) (pp p) / s / (V55.v0 (pp p) + V55.delta s (tt CT) (pp p)))

/-- Float semantics of `specvol` from `polyTEOS10_75t`. -/
def v75SpecvolF (SA CT p : ℝ) : Option ℝ :=
  (ssF SA).map fun s => V75.v0 (pp p) + V75.delta s (tt CT) (pp p)

/-- Float semantics of `delta` from `polyTEOS10_75t`. -/
def v75DeltaF (SA CT p : ℝ) : Option ℝ :=
  (ssF SA).map fun s => V75.delta s (tt CT) (pp p)

/-- Float semantics of `alpha` from `polyTEOS10_75t`. -/
def v75AlphaF (SA CT p : ℝ) : Option ℝ :=
  (ssF SA).bind fun s =>
    if V75.v0 (pp p) + V75.delta s (tt CT) (pp p) = 0 then none
    else some (V75.a s (tt CT) (pp p) / (V75.v0 (pp p) + V75.delta s (tt CT) (pp p)))

/-- Float semantics of `beta` from `polyTEOS10_75t`. -/
def v75BetaF (SA CT p : ℝ) : Option ℝ :=
  (ssF SA).bind fun s =>
    if s = 0 then none
    else if V75.v0 (pp p) + V75.delta s (tt CT) (pp p) = 0 then none
    else some (V75.b s (tt CT) (pp p) / s / (V75.v0 (pp p) + V75.delta s (tt CT) (pp p)))


/-! ### Exact evaluation facts at the check point SA=30, CT=10, p=1000 -/

lemma ss30_sq : ss 30 ^ 2 = 678125/439563 := by
  rw [show ss 30 = Real.sqrt (678125/439563) by rw [ss]; norm_num [deltaS, SAu]]
  exact Real.sq_sqrt (by norm_num)

lemma ss30_lo : (1.2420649695666532 : ℝ) < ss 30 := by
  rw [show ss 30 = Real.sqrt (678125/439563) by rw [ss]; norm_num [deltaS, SAu]]
  exact (Real.lt_sqrt (by norm_num)).2 (by norm_num)

lemma ss30_hi : ss 30 < (1.2420649695666534 : ℝ) := by
  rw [show ss 30 = Real.sqrt (678125/439563) by rw [ss]; norm_num [deltaS, SAu]]
  exact (Real.sqrt_lt' (by norm_num)).2 (by norm_num)

lemma ss30_pos : 0 < ss 30 := lt_trans (by norm_num) ss30_lo

lemma bsqRhoLin :
    Bsq.r (ss 30) (tt 10) (pp 1000) + Bsq.r0 (pp 1000) = ((-17592131206845232291024196829244233108533 : ℝ)/3397217695825061880000000000000000000) + ((20594801237870615059000619453729 : ℝ)/4121933460672000000000000000) * ss 30 := by
  simp only [Bsq.r0, Bsq.r, Bsq.a, Bsq.b, Bsq.rz3, Bsq.rz2, Bsq.rz1, Bsq.rz0, Bsq.R00, Bsq.R01, Bsq.R02, Bsq.R03, Bsq.R04, Bsq.R05, Bsq.R000, Bsq.R100, Bsq.R200, Bsq.R300, Bsq.R400, Bsq.R500, Bsq.R600, Bsq.R010, Bsq.R110, Bsq.R210, Bsq.R310, Bsq.R410, Bsq.R510, Bsq.R020, Bsq.R120, Bsq.R220, Bsq.R320, Bsq.R420, Bsq.R030, Bsq.R130, Bsq.R230, Bsq.R330, Bsq.R040, Bsq.R140, Bsq.R240, Bsq.R050, Bsq.R150, Bsq.R060, Bsq.R001, Bsq.R101, Bsq.R201, Bsq.R301, Bsq.R401, Bsq.R011, Bsq.R111, Bsq.R211, Bsq.R311, Bsq.R021, Bsq.R121, Bsq.R221, Bsq.R031, Bsq.R131, Bsq.R041, Bsq.R002, Bsq.R102, Bsq.R202, Bsq.R012, Bsq.R112, Bsq.R022, Bsq.R003, Bsq.R103, Bsq.R013, Bsq.ALP000, Bsq.ALP100, Bsq.ALP200, Bsq.ALP300, Bsq.ALP400, Bsq.ALP500, Bsq.ALP010, Bsq.ALP110, Bsq.ALP210, Bsq.ALP310, Bsq.ALP410, Bsq.ALP020, Bsq.ALP120, Bsq.ALP220, Bsq.ALP320, Bsq.ALP030, Bsq.ALP130, Bsq.ALP230, Bsq.ALP040, Bsq.ALP140, Bsq.ALP050, Bsq.ALP001, Bsq.ALP101, Bsq.ALP201, Bsq.ALP301, Bsq.ALP011, Bsq.ALP111, Bsq.ALP211, Bsq.ALP021, Bsq.ALP121, Bsq.ALP031, Bsq.ALP002, Bsq.ALP102, Bsq.ALP012, Bsq.ALP003, Bsq.BET000, Bsq.BET100, Bsq.BET200, Bsq.BET300, Bsq.BET400, Bsq.BET500, Bsq.BET010, Bsq.BET110, Bsq.BET210, Bsq.BET310, Bsq.BET410, Bsq.BET020, Bsq.BET120, Bsq.BET220, Bsq.BET320, Bsq.BET030, Bsq.BET130, Bsq.BET230, Bsq.BET040, Bsq.BET140, Bsq.BET050, Bsq.BET001, Bsq.BET101, Bsq.BET201, Bsq.BET301, Bsq.BET011, Bsq.BET111, Bsq.BET211, Bsq.BET021, Bsq.BET121, Bsq.BET031, Bsq.BET002, Bsq.BET102, Bsq.BET012, Bsq.BET003, tt, pp, CTu, Zu]
  linear_combination (((-48021811809813574400524838941 : ℝ)/12365800382016000000000000) + ((1575458903153186656381 : ℝ)/586084000000000000) * ss 30 + ((-483039414837473955997 : ℝ)/351650400000000000) * ss 30 ^ 2 + ((3454368154281 : ℝ)/8000000000) * ss 30 ^ 3 + ((-15144979153 : ℝ)/250000000) * ss 30 ^ 4) * ss30_sq

lemma bsqRLin :
    Bsq.r (ss 30) (tt 10) (pp 1000) = ((-28172400572850958649254764989885982401 : ℝ)/5435548313320099008000000000000000) + ((20594801237870615059000619453729 : ℝ)/4121933460672000000000000000) * ss 30 := by
  simp only [Bsq.r0, Bsq.r, Bsq.a, Bsq.b, Bsq.rz3, Bsq.rz2, Bsq.rz1, Bsq.rz0, Bsq.R00, Bsq.R01, Bsq.R02, Bsq.R03, Bsq.R04, Bsq.R05, Bsq.R000, Bsq.R100, Bsq.R200, Bsq.R300, Bsq.R400, Bsq.R500, Bsq.R600, Bsq.R010, Bsq.R110, Bsq.R210, Bsq.R310, Bsq.R410, Bsq.R510, Bsq.R020, Bsq.R120, Bsq.R220, Bsq.R320, Bsq.R420, Bsq.R030, Bsq.R130, Bsq.R230, Bsq.R330, Bsq.R040, Bsq.R140, Bsq.R240, Bsq.R050, Bsq.R150, Bsq.R060, Bsq.R001, Bsq.R101, Bsq.R201, Bsq.R301, Bsq.R401, Bsq.R011, Bsq.R111, Bsq.R211, Bsq.R311, Bsq.R021, Bsq.R121, Bsq.R221, Bsq.R031, Bsq.R131, Bsq.R041, Bsq.R002, Bsq.R102, Bsq.R202, Bsq.R012, Bsq.R112, Bsq.R022, Bsq.R003, Bsq.R103, Bsq.R013, Bsq.ALP000, Bsq.ALP100, Bsq.ALP200, Bsq.ALP300, Bsq.ALP400, Bsq.ALP500, Bsq.ALP010, Bsq.ALP110, Bsq.ALP210, Bsq.ALP310, Bsq.ALP410, Bsq.ALP020, Bsq.ALP120, Bsq.ALP220, Bsq.ALP320, Bsq.ALP030, Bsq.ALP130, Bsq.ALP230, Bsq.ALP040, Bsq.ALP140, Bsq.ALP050, Bsq.ALP001, Bsq.ALP101, Bsq.ALP201, Bsq.ALP301, Bsq.ALP011, Bsq.ALP111, Bsq.ALP211, Bsq.ALP021, Bsq.ALP121, Bsq.ALP031, Bsq.ALP002, Bsq.ALP102, Bsq.ALP012, Bsq.ALP003, Bsq.BET000, Bsq.BET100, Bsq.BET200, Bsq.BET300, Bsq.BET400, Bsq.BET500, Bsq.BET010, Bsq.BET110, Bsq.BET210, Bsq.BET310, Bsq.BET410, Bsq.BET020, Bsq.BET120, Bsq.BET220, Bsq.BET320, Bsq.BET030, Bsq.BET130, Bsq.BET230, Bsq.BET040, Bsq.BET140, Bsq.BET050, Bsq.BET001, Bsq.BET101, Bsq.BET201, Bsq.BET301, Bsq.BET011, Bsq.BET111, Bsq.BET211, Bsq.BET021, Bsq.BET121, Bsq.BET031, Bsq.BET002, Bsq.BET102, Bsq.BET012, Bsq.BET003, tt, pp, CTu, Zu]
  linear_combination (((-48021811809813574400524838941 : ℝ)/12365800382016000000000000) + ((1575458903153186656381 : ℝ)/586084000000000000) * ss 30 + ((-483039414837473955997 : ℝ)/351650400000000000) * ss 30 ^ 2 + ((3454368154281 : ℝ)/8000000000) * ss 30 ^ 3 + ((-15144979153 : ℝ)/250000000) * ss 30 ^ 4) * ss30_sq

lemma bsqALin :
    Bsq.a (ss 30) (tt 10) (pp 1000) = ((-134960003402868808522241915861 : ℝ)/41219334606720000000000000000) + ((4298232391384031115717476513 : ℝ)/1545725047752000000000000000) * ss 30 := by
  simp only [Bsq.r0, Bsq.r, Bsq.a, Bsq.b, Bsq.rz3, Bsq.rz2, Bsq.rz1, Bsq.rz0, Bsq.R00, Bsq.R01, Bsq.R02, Bsq.R03, Bsq.R04, Bsq.R05, Bsq.R000, Bsq.R100, Bsq.R200, Bsq.R300, Bsq.R400, Bsq.R500, Bsq.R600, Bsq.R010, Bsq.R110, Bsq.R210, Bsq.R310, Bsq.R410, Bsq.R510, Bsq.R020, Bsq.R120, Bsq.R220, Bsq.R320, Bsq.R420, Bsq.R030, Bsq.R130, Bsq.R230, Bsq.R330, Bsq.R040, Bsq.R140, Bsq.R240, Bsq.R050, Bsq.R150, Bsq.R060, Bsq.R001, Bsq.R101, Bsq.R201, Bsq.R301, Bsq.R401, Bsq.R011, Bsq.R111, Bsq.R211, Bsq.R311, Bsq.R021, Bsq.R121, Bsq.R221, Bsq.R031, Bsq.R131, Bsq.R041, Bsq.R002, Bsq.R102, Bsq.R202, Bsq.R012, Bsq.R112, Bsq.R022, Bsq.R003, Bsq.R103, Bsq.R013, Bsq.ALP000, Bsq.ALP100, Bsq.ALP200, Bsq.ALP300, Bsq.ALP400, Bsq.ALP500, Bsq.ALP010, Bsq.ALP110, Bsq.ALP210, Bsq.ALP310, Bsq.ALP410, Bsq.ALP020, Bsq.ALP120, Bsq.ALP220, Bsq.ALP320, Bsq.ALP030, Bsq.ALP130, Bsq.ALP230, Bsq.ALP040, Bsq.ALP140, Bsq.ALP050, Bsq.ALP001, Bsq.ALP101, Bsq.ALP201, Bsq.ALP301, Bsq.ALP011, Bsq.ALP111, Bsq.ALP211, Bsq.ALP021, Bsq.ALP121, Bsq.ALP031, Bsq.ALP002, Bsq.ALP102, Bsq.ALP012, Bsq.ALP003, Bsq.BET000, Bsq.BET100, Bsq.BET200, Bsq.BET300, Bsq.BET400, Bsq.BET500, Bsq.BET010, Bsq.BET110, Bsq.BET210, Bsq.BET310, Bsq.BET410, Bsq.BET020, Bsq.BET120, Bsq.BET220, Bsq.BET320, Bsq.BET030, Bsq.BET130, Bsq.BET230, Bsq.BET040, Bsq.BET140, Bsq.BET050, Bsq.BET001, Bsq.BET101, Bsq.BET201, Bsq.BET301, Bsq.BET011, Bsq.BET111, Bsq.BET211, Bsq.BET021, Bsq.BET121, Bsq.BET031, Bsq.BET002, Bsq.BET102, Bsq.BET012, Bsq.BET003, tt, pp, CTu, Zu]
  linear_combination (((-45957649138883826871 : ℝ)/23443360000000000000) + ((20195566121297529257 : ℝ)/17582520000000000000) * ss 30 + ((-74728147383 : ℝ)/200000000000) * ss 30 ^ 2 + ((47983755487 : ℝ)/1000000000000) * ss 30 ^ 3) * ss30_sq

lemma stifRhoLin :
    Stif.r1 (pp 1000) * Stif.rdot (ss 30) (tt 10) (pp 1000) = ((-8387734864784717721599846337783080137397443275812908005259 : ℝ)/1610532833576325632000000000000000000000000000000000000) + ((41386434403373007264961739242370037011150381181039727 : ℝ)/8243866921344000000000000000000000000000000000000) * ss 30 := by
  simp only [Stif.r1, Stif.rdot, Stif.aRaw, Stif.bRaw, Stif.rz3, Stif.rz2, Stif.rz1, Stif.rz0, Stif.R10, Stif.R11, Stif.R12, Stif.R13, Stif.R14, Stif.R15, Stif.R000, Stif.R100, Stif.R200, Stif.R300, Stif.R400, Stif.R500, Stif.R600, Stif.R010, Stif.R110, Stif.R210, Stif.R310, Stif.R410, Stif.R510, Stif.R020, Stif.R120, Stif.R220, Stif.R320, Stif.R420, Stif.R030, Stif.R130, Stif.R230, Stif.R330, Stif.R040, Stif.R140, Stif.R240, Stif.R050, Stif.R150, Stif.R060, Stif.R001, Stif.R101, Stif.R201, Stif.R301, Stif.R401, Stif.R011, Stif.R111, Stif.R211, Stif.R311, Stif.R021, Stif.R121, Stif.R221, Stif.R031, Stif.R131, Stif.R041, Stif.R002, Stif.R102, Stif.R202, Stif.R012, Stif.R112, Stif.R022, Stif.R003, Stif.R103, Stif.R013, Stif.ALP000, Stif.ALP100, Stif.ALP200, Stif.ALP300, Stif.ALP400, Stif.ALP500, Stif.ALP010, Stif.ALP110, Stif.ALP210, Stif.ALP310, Stif.ALP410, Stif.ALP020, Stif.ALP120, Stif.ALP220, Stif.ALP320, Stif.ALP030, Stif.ALP130, Stif.ALP230, Stif.ALP040, Stif.ALP140, Stif.ALP050, Stif.ALP001, Stif.ALP101, Stif.ALP201, Stif.ALP301, Stif.ALP011, Stif.ALP111, Stif.ALP211, Stif.ALP021, Stif.ALP121, Stif.ALP031, Stif.ALP002, Stif.ALP102, Stif.ALP012, Stif.ALP003, Stif.BET000, Stif.BET100, Stif.BET200, Stif.BET300, Stif.BET400, Stif.BET500, Stif.BET010, Stif.BET110, Stif.BET210, Stif.BET310, Stif.BET410, Stif.BET020, Stif.BET120, Stif.BET220, Stif.BET320, Stif.BET030, Stif.BET130, Stif.BET230, Stif.BET040, Stif.BET140, Stif.BET050, Stif.BET001, Stif.BET101, Stif.BET201, Stif.BET301, Stif.BET011, Stif.BET111, Stif.BET211, Stif.BET021, Stif.BET121, Stif.BET031, Stif.BET002, Stif.BET102, Stif.BET012, Stif.BET003, tt, pp, CTu, Zu]
  linear_combination (((-53614591283321749431534842855091664954922632609839 : ℝ)/13739778202240000000000000000000000000000000000) + ((63319574750867546223947980865972870260891393 : ℝ)/23443360000000000000000000000000000000000) * ss 30 + ((-808912845906362040958166679310605664274679 : ℝ)/586084000000000000000000000000000000000) * ss 30 ^ 2 + ((4338574811574188777888021985735573 : ℝ)/10000000000000000000000000000000) * ss 30 ^ 3 + ((-608687687893431631011323731186041 : ℝ)/10000000000000000000000000000000) * ss 30 ^ 4) * ss30_sq

lemma stifRdotLin :
    Stif.rdot (ss 30) (tt 10) (pp 1000) = ((-2505114244274644896712303155441272897 : ℝ)/483159850072897689600000000000000) + ((12360637051000653112965654226541 : ℝ)/2473160076403200000000000000) * ss 30 := by
  simp only [Stif.r1, Stif.rdot, Stif.aRaw, Stif.bRaw, Stif.rz3, Stif.rz2, Stif.rz1, Stif.rz0, Stif.R10, Stif.R11, Stif.R12, Stif.R13, Stif.R14, Stif.R15, Stif.R000, Stif.R100, Stif.R200, Stif.R300, Stif.R400, Stif.R500, Stif.R600, Stif.R010, Stif.R110, Stif.R210, Stif.R310, Stif.R410, Stif.R510, Stif.R020, Stif.R120, Stif.R220, Stif.R320, Stif.R420, Stif.R030, Stif.R130, Stif.R230, Stif.R330, Stif.R040, Stif.R140, Stif.R240, Stif.R050, Stif.R150, Stif.R060, Stif.R001, Stif.R101, Stif.R201, Stif.R301, Stif.R401, Stif.R011, Stif.R111, Stif.R211, Stif.R311, Stif.R021, Stif.R121, Stif.R221, Stif.R031, Stif.R131, Stif.R041, Stif.R002, Stif.R102, Stif.R202, Stif.R012, Stif.R112, Stif.R022, Stif.R003, Stif.R103, Stif.R013, Stif.ALP000, Stif.ALP100, Stif.ALP200, Stif.ALP300, Stif.ALP400, Stif.ALP500, Stif.ALP010, Stif.ALP110, Stif.ALP210, Stif.ALP310, Stif.ALP410, Stif.ALP020, Stif.ALP120, Stif.ALP220, Stif.ALP320, Stif.ALP030, Stif.ALP130, Stif.ALP230, Stif.ALP040, Stif.ALP140, Stif.ALP050, Stif.ALP001, Stif.ALP101, Stif.ALP201, Stif.ALP301, Stif.ALP011, Stif.ALP111, Stif.ALP211, Stif.ALP021, Stif.ALP121, Stif.ALP031, Stif.ALP002, Stif.ALP102, Stif.ALP012, Stif.ALP003, Stif.BET000, Stif.BET100, Stif.BET200, Stif.BET300, Stif.BET400, Stif.BET500, Stif.BET010, Stif.BET110, Stif.BET210, Stif.BET310, Stif.BET410, Stif.BET020, Stif.BET120, Stif.BET220, Stif.BET320, Stif.BET030, Stif.BET130, Stif.BET230, Stif.BET040, Stif.BET140, Stif.BET050, Stif.BET001, Stif.BET101, Stif.BET201, Stif.BET301, Stif.BET011, Stif.BET111, Stif.BET211, Stif.BET021, Stif.BET121, Stif.BET031, Stif.BET002, Stif.BET102, Stif.BET012, Stif.BET003, tt, pp, CTu, Zu]
  linear_combination (((-5337582334602473500241473679 : ℝ)/1373977820224000000000000) + ((18911275953151232808419 : ℝ)/7033008000000000000) * ss 30 + ((-80531042262853688919 : ℝ)/58608400000000000) * ss 30 ^ 2 + ((431925334453 : ℝ)/1000000000) * ss 30 ^ 3 + ((-60597695001 : ℝ)/1000000000) * ss 30 ^ 4) * ss30_sq

lemma stifALin :
    Stif.r1 (pp 1000) * Stif.aRaw (ss 30) (tt 10) (pp 1000) = ((-227033884976875434063496403123945455014431848615533 : ℝ)/68698891011200000000000000000000000000000000000000) + ((2312686751236527332648522855668822179659907299389 : ℝ)/824386692134400000000000000000000000000000000000) * ss 30 := by
  simp only [Stif.r1, Stif.rdot, Stif.aRaw, Stif.bRaw, Stif.rz3, Stif.rz2, Stif.rz1, Stif.rz0, Stif.R10, Stif.R11, Stif.R12, Stif.R13, Stif.R14, Stif.R15, Stif.R000, Stif.R100, Stif.R200, Stif.R300, Stif.R400, Stif.R500, Stif.R600, Stif.R010, Stif.R110, Stif.R210, Stif.R310, Stif.R410, Stif.R510, Stif.R020, Stif.R120, Stif.R220, Stif.R320, Stif.R420, Stif.R030, Stif.R130, Stif.R230, Stif.R330, Stif.R040, Stif.R140, Stif.R240, Stif.R050, Stif.R150, Stif.R060, Stif.R001, Stif.R101, Stif.R201, Stif.R301, Stif.R401, Stif.R011, Stif.R111, Stif.R211, Stif.R311, Stif.R021, Stif.R121, Stif.R221, Stif.R031, Stif.R131, Stif.R041, Stif.R002, Stif.R102, Stif.R202, Stif.R012, Stif.R112, Stif.R022, Stif.R003, Stif.R103, Stif.R013, Stif.ALP000, Stif.ALP100, Stif.ALP200, Stif.ALP300, Stif.ALP400, Stif.ALP500, Stif.ALP010, Stif.ALP110, Stif.ALP210, Stif.ALP310, Stif.ALP410, Stif.ALP020, Stif.ALP120, Stif.ALP220, Stif.ALP320, Stif.ALP030, Stif.ALP130, Stif.ALP230, Stif.ALP040, Stif.ALP140, Stif.ALP050, Stif.ALP001, Stif.ALP101, Stif.ALP201, Stif.ALP301, Stif.ALP011, Stif.ALP111, Stif.ALP211, Stif.ALP021, Stif.ALP121, Stif.ALP031, Stif.ALP002, Stif.ALP102, Stif.ALP012, Stif.ALP003, Stif.BET000, Stif.BET100, Stif.BET200, Stif.BET300, Stif.BET400, Stif.BET500, Stif.BET010, Stif.BET110, Stif.BET210, Stif.BET310, Stif.BET410, Stif.BET020, Stif.BET120, Stif.BET220, Stif.BET320, Stif.BET030, Stif.BET130, Stif.BET230, Stif.BET040, Stif.BET140, Stif.BET050, Stif.BET001, Stif.BET101, Stif.BET201, Stif.BET301, Stif.BET011, Stif.BET111, Stif.BET211, Stif.BET021, Stif.BET121, Stif.BET031, Stif.BET002, Stif.BET102, Stif.BET012, Stif.BET003, tt, pp, CTu, Zu]
  linear_combination (((-463967027797550136751434522466330321453533 : ℝ)/234433600000000000000000000000000000000000) + ((67978558488322182299415372624422674251919 : ℝ)/58608400000000000000000000000000000000000) * ss 30 + ((-1511422346686549696547597666879661 : ℝ)/4000000000000000000000000000000000) * ss 30 ^ 2 + ((4867996570982438286749660168217 : ℝ)/100000000000000000000000000000000) * ss 30 ^ 3) * ss30_sq

lemma v55SpecvolLin :
    V55.v0 (pp 1000) + V55.delta (ss 30) (tt 10) (pp 1000) = ((4912726144237845695145126711246832183181 : ℝ)/1358887078330024752000000000000000000000000) + ((-1757369326488004894573253273719 : ℝ)/824386692134400000000000000000000) * ss 30 := by
  simp only [V55.v0, V55.delta, V55.a, V55.b, V55.vp3, V55.vp2, V55.vp1, V55.vp0, V55.ap3, V55.ap2, V55.ap1, V55.ap0, V55.bp3, V55.bp2, V55.bp1, V55.bp0, V55.V00, V55.V01, V55.V02, V55.V03, V55.V04, V55.V05, V55.V000, V55.V100, V55.V200, V55.V300, V55.V400, V55.V500, V55.V600, V55.V010, V55.V110, V55.V210, V55.V310, V55.V410, V55.V510, V55.V020, V55.V120, V55.V220, V55.V320, V55.V420, V55.V030, V55.V130, V55.V230, V55.V330, V55.V040, V55.V140, V55.V240, V55.V050, V55.V150, V55.V060, V55.V001, V55.V101, V55.V201, V55.V301, V55.V401, V55.V011, V55.V111, V55.V211, V55.V311, V55.V021, V55.V121, V55.V221, V55.V031, V55.V131, V55.V041, V55.V002, V55.V102, V55.V202, V55.V012, V55.V112, V55.V022, V55.V003, V55.V103, V55.V013, V55.A000, V55.A100, V55.A200, V55.A300, V55.A400, V55.A500, V55.A010, V55.A110, V55.A210, V55.A310, V55.A410, V55.A020, V55.A120, V55.A220, V55.A320, V55.A030, V55.A130, V55.A230, V55.A040, V55.A140, V55.A050, V55.A001, V55.A101, V55.A201, V55.A301, V55.A011, V55.A111, V55.A211, V55.A021, V55.A121, V55.A031, V55.A002, V55.A102, V55.A012, V55.A003, V55.B000, V55.B100, V55.B200, V55.B300, V55.B400, V55.B500, V55.B010, V55.B110, V55.B210, V55.B310, V55.B410, V55.B020, V55.B120, V55.B220, V55.B320, V55.B030, V55.B130, V55.B230, V55.B040, V55.B140, V55.B050, V55.B001, V55.B101, V55.B201, V55.B301, V55.B011, V55.B111, V55.B211, V55.B021, V55.B121, V55.B031, V55.B002, V55.B102, V55.B012, V55.B003, tt, pp, CTu, Zu]
  linear_combination (((10203430200855989304904913459 : ℝ)/6182900191008000000000000000000) + ((-69419435290338790759 : ℝ)/58608400000000000000000) * ss 30 + ((224287068661350588457 : ℝ)/351650400000000000000000) * ss 30 ^ 2 + ((-8590825484037 : ℝ)/40000000000000000) * ss 30 ^ 3 + ((6535790891 : ℝ)/200000000000000) * ss 30 ^ 4) * ss30_sq

lemma v55DeltaLin :
    V55.delta (ss 30) (tt 10) (pp 1000) = ((314791310394794647068157079697025973 : ℝ)/86968773013121584128000000000000000000) + ((-1757369326488004894573253273719 : ℝ)/824386692134400000000000000000000) * ss 30 := by
  simp only [V55.v0, V55.delta, V55.a, V55.b, V55.vp3, V55.vp2, V55.vp1, V55.vp0, V55.ap3, V55.ap2, V55.ap1, V55.ap0, V55.bp3, V55.bp2, V55.bp1, V55.bp0, V55.V00, V55.V01, V55.V02, V55.V03, V55.V04, V55.V05, V55.V000, V55.V100, V55.V200, V55.V300, V55.V400, V55.V500, V55.V600, V55.V010, V55.V110, V55.V210, V55.V310, V55.V410, V55.V510, V55.V020, V55.V120, V55.V220, V55.V320, V55.V420, V55.V030, V55.V130, V55.V230, V55.V330, V55.V040, V55.V140, V55.V240, V55.V050, V55.V150, V55.V060, V55.V001, V55.V101, V55.V201, V55.V301, V55.V401, V55.V011, V55.V111, V55.V211, V55.V311, V55.V021, V55.V121, V55.V221, V55.V031, V55.V131, V55.V041, V55.V002, V55.V102, V55.V202, V55.V012, V55.V112, V55.V022, V55.V003, V55.V103, V55.V013, V55.A000, V55.A100, V55.A200, V55.A300, V55.A400, V55.A500, V55.A010, V55.A110, V55.A210, V55.A310, V55.A410, V55.A020, V55.A120, V55.A220, V55.A320, V55.A030, V55.A130, V55.A230, V55.A040, V55.A140, V55.A050, V55.A001, V55.A101, V55.A201, V55.A301, V55.A011, V55.A111, V55.A211, V55.A021, V55.A121, V55.A031, V55.A002, V55.A102, V55.A012, V55.A003, V55.B000, V55.B100, V55.B200, V55.B300, V55.B400, V55.B500, V55.B010, V55.B110, V55.B210, V55.B310, V55.B410, V55.B020, V55.B120, V55.B220, V55.B320, V55.B030, V55.B130, V55.B230, V55.B040, V55.B140, V55.B050, V55.B001, V55.B101, V55.B201, V55.B301, V55.B011, V55.B111, V55.B211, V55.B021, V55.B121, V55.B031, V55.B002, V55.B102, V55.B012, V55.B003, tt, pp, CTu, Zu]
  linear_combination (((10203430200855989304904913459 : ℝ)/6182900191008000000000000000000) + ((-69419435290338790759 : ℝ)/58608400000000000000000) * ss 30 + ((224287068661350588457 : ℝ)/351650400000000000000000) * ss 30 ^ 2 + ((-8590825484037 : ℝ)/40000000000000000) * ss 30 ^ 3 + ((6535790891 : ℝ)/200000000000000) * ss 30 ^ 4) * ss30_sq

lemma v75SpecvolLin :
    V75.v0 (pp 1000) + V75.delta (ss 30) (tt 10) (pp 1000) = ((269666052943662080845056233322448580387 : ℝ)/75493726573890264000000000000000000000000) + ((-259302062055689448576674242591 : ℝ)/123658003820160000000000000000000) * ss 30 := by
  simp only [V75.v0, V75.delta, V75.a, V75.b, V75.vp5, V75.vp4, V75.vp3, V75.vp2, V75.vp1, V75.vp0, V75.ap4, V75.ap3, V75.ap2, V75.ap1, V75.ap0, V75.bp4, V75.bp3, V75.bp2, V75.bp1, V75.bp0, V75.V00, V75.V01, V75.V02, V75.V03, V75.V04, V75.V05, V75.V000, V75.V100, V75.V200, V75.V300, V75.V400, V75.V500, V75.V600, V75.V010, V75.V110, V75.V210, V75.V310, V75.V410, V75.V510, V75.V020, V75.V120, V75.V220, V75.V320, V75.V420, V75.V030, V75.V130, V75.V230, V75.V330, V75.V040, V75.V140, V75.V240, V75.V050, V75.V150, V75.V060, V75.V001, V75.V101, V75.V201, V75.V301, V75.V401, V75.V501, V75.V011, V75.V111, V75.V211, V75.V311, V75.V411, V75.V021, V75.V121, V75.V221, V75.V321, V75.V031, V75.V131, V75.V231, V75.V041, V75.V141, V75.V051, V75.V002, V75.V102, V75.V202, V75.V302, V75.V402, V75.V012, V75.V112, V75.V212, V75.V312, V75.V022, V75.V122, V75.V222, V75.V032, V75.V132, V75.V042, V75.V003, V75.V103, V75.V203, V75.V013, V75.V113, V75.V023, V75.V004, V75.V104, V75.V014, V75.V005, V75.A000, V75.A100, V75.A200, V75.A300, V75.A400, V75.A500, V75.A010, V75.A110, V75.A210, V75.A310, V75.A410, V75.A020, V75.A120, V75.A220, V75.A320, V75.A030, V75.A130, V75.A230, V75.A040, V75.A140, V75.A050, V75.A001, V75.A101, V75.A201, V75.A301, V75.A401, V75.A011, V75.A111, V75.A211, V75.A311, V75.A021, V75.A121, V75.A221, V75.A031, V75.A131, V75.A041, V75.A002, V75.A102, V75.A202, V75.A302, V75.A012, V75.A112, V75.A212, V75.A022, V75.A122, V75.A032, V75.A003, V75.A103, V75.A013, V75.A004, V75.B000, V75.B100, V75.B200, V75.B300, V75.B400, V75.B500, V75.B010, V75.B110, V75.B210, V75.B310, V75.B410, V75.B020, V75.B120, V75.B220, V75.B320, V75.B030, V75.B130, V75.B230, V75.B040, V75.B140, V75.B050, V75.B001, V75.B101, V75.B201, V75.B301, V75.B401, V75.B011, V75.B111, V75.B211, V75.B311, V75.B021, V75.B121, V75.B221, V75.B031, V75.B131, V75.B041, V75.B002, V75.B102, V75.B202, V75.B302, V75.B012, V75.B112, V75.B212, V75.B022, V75.B122, V75.B032, V75.B003, V75.B103, V75.B013, V75.B004, tt, pp, CTu, Zu]
  linear_combination (((27865460685290834667199054399 : ℝ)/17174722752800000000000000000000) + ((-40925807592941725879 : ℝ)/35165040000000000000000) * ss 30 + ((45838349035113011229 : ℝ)/73260500000000000000000) * ss 30 ^ 2 + ((-42053563186589 : ℝ)/200000000000000000) * ss 30 ^ 3 + ((6386491461 : ℝ)/200000000000000) * ss 30 ^ 4) * ss30_sq

lemma v75DeltaLin :
    V75.delta (ss 30) (tt 10) (pp 1000) = ((53998633707408201338953776209147478799 : ℝ)/15098745314778052800000000000000000000000) + ((-259302062055689448576674242591 : ℝ)/123658003820160000000000000000000) * ss 30 := by
  simp only [V75.v0, V75.delta, V75.a, V75.b, V75.vp5, V75.vp4, V75.vp3, V75.vp2, V75.vp1, V75.vp0, V75.ap4, V75.ap3, V75.ap2, V75.ap1, V75.ap0, V75.bp4, V75.bp3, V75.bp2, V75.bp1, V75.bp0, V75.V00, V75.V01, V75.V02, V75.V03, V75.V04, V75.V05, V75.V000, V75.V100, V75.V200, V75.V300, V75.V400, V75.V500, V75.V600, V75.V010, V75.V110, V75.V210, V75.V310, V75.V410, V75.V510, V75.V020, V75.V120, V75.V220, V75.V320, V75.V420, V75.V030, V75.V130, V75.V230, V75.V330, V75.V040, V75.V140, V75.V240, V75.V050, V75.V150, V75.V060, V75.V001, V75.V101, V75.V201, V75.V301, V75.V401, V75.V501, V75.V011, V75.V111, V75.V211, V75.V311, V75.V411, V75.V021, V75.V121, V75.V221, V75.V321, V75.V031, V75.V131, V75.V231, V75.V041, V75.V141, V75.V051, V75.V002, V75.V102, V75.V202, V75.V302, V75.V402, V75.V012, V75.V112, V75.V212, V75.V312, V75.V022, V75.V122, V75.V222, V75.V032, V75.V132, V75.V042, V75.V003, V75.V103, V75.V203, V75.V013, V75.V113, V75.V023, V75.V004, V75.V104, V75.V014, V75.V005, V75.A000, V75.A100, V75.A200, V75.A300, V75.A400, V75.A500, V75.A010, V75.A110, V75.A210, V75.A310, V75.A410, V75.A020, V75.A120, V75.A220, V75.A320, V75.A030, V75.A130, V75.A230, V75.A040, V75.A140, V75.A050, V75.A001, V75.A101, V75.A201, V75.A301, V75.A401, V75.A011, V75.A111, V75.A211, V75.A311, V75.A021, V75.A121, V75.A221, V75.A031, V75.A131, V75.A041, V75.A002, V75.A102, V75.A202, V75.A302, V75.A012, V75.A112, V75.A212, V75.A022, V75.A122, V75.A032, V75.A003, V75.A103, V75.A013, V75.A004, V75.B000, V75.B100, V75.B200, V75.B300, V75.B400, V75.B500, V75.B010, V75.B110, V75.B210, V75.B310, V75.B410, V75.B020, V75.B120, V75.B220, V75.B320, V75.B030, V75.B130, V75.B230, V75.B040, V75.B140, V75.B050, V75.B001, V75.B101, V75.B201, V75.B301, V75.B401, V75.B011, V75.B111, V75.B211, V75.B311, V75.B021, V75.B121, V75.B221, V75.B031, V75.B131, V75.B041, V75.B002, V75.B102, V75.B202, V75.B302, V75.B012, V75.B112, V75.B212, V75.B022, V75.B122, V75.B032, V75.B003, V75.B103, V75.B013, V75.B004, tt, pp, CTu, Zu]
  linear_combination (((27865460685290834667199054399 : ℝ)/17174722752800000000000000000000) + ((-40925807592941725879 : ℝ)/35165040000000000000000) * ss 30 + ((45838349035113011229 : ℝ)/73260500000000000000000) * ss 30 ^ 2 + ((-42053563186589 : ℝ)/200000000000000000) * ss 30 ^ 3 + ((6386491461 : ℝ)/200000000000000) * ss 30 ^ 4) * ss30_sq

lemma bsqBLin :
    Bsq.b (ss 30) (tt 10) (pp 1000) = ((118045136432116025782262211954379 : ℝ)/618290019100800000000000000000) + ((-94566086465441142120890661823 : ℝ)/618290019100800000000000000) * ss 30 := by
  simp only [Bsq.r0, Bsq.r, Bsq.a, Bsq.b, Bsq.rz3, Bsq.rz2, Bsq.rz1, Bsq.rz0, Bsq.R00, Bsq.R01, Bsq.R02, Bsq.R03, Bsq.R04, Bsq.R05, Bsq.R000, Bsq.R100, Bsq.R200, Bsq.R300, Bsq.R400, Bsq.R500, Bsq.R600, Bsq.R010, Bsq.R110, Bsq.R210, Bsq.R310, Bsq.R410, Bsq.R510, Bsq.R020, Bsq.R120, Bsq.R220, Bsq.R320, Bsq.R420, Bsq.R030, Bsq.R130, Bsq.R230, Bsq.R330, Bsq.R040, Bsq.R140, Bsq.R240, Bsq.R050, Bsq.R150, Bsq.R060, Bsq.R001, Bsq.R101, Bsq.R201, Bsq.R301, Bsq.R401, Bsq.R011, Bsq.R111, Bsq.R211, Bsq.R311, Bsq.R021, Bsq.R121, Bsq.R221, Bsq.R031, Bsq.R131, Bsq.R041, Bsq.R002, Bsq.R102, Bsq.R202, Bsq.R012, Bsq.R112, Bsq.R022, Bsq.R003, Bsq.R103, Bsq.R013, Bsq.ALP000, Bsq.ALP100, Bsq.ALP200, Bsq.ALP300, Bsq.ALP400, Bsq.ALP500, Bsq.ALP010, Bsq.ALP110, Bsq.ALP210, Bsq.ALP310, Bsq.ALP410, Bsq.ALP020, Bsq.ALP120, Bsq.ALP220, Bsq.ALP320, Bsq.ALP030, Bsq.ALP130, Bsq.ALP230, Bsq.ALP040, Bsq.ALP140, Bsq.ALP050, Bsq.ALP001, Bsq.ALP101, Bsq.ALP201, Bsq.ALP301, Bsq.ALP011, Bsq.ALP111, Bsq.ALP211, Bsq.ALP021, Bsq.ALP121, Bsq.ALP031, Bsq.ALP002, Bsq.ALP102, Bsq.ALP012, Bsq.ALP003, Bsq.BET000, Bsq.BET100, Bsq.BET200, Bsq.BET300, Bsq.BET400, Bsq.BET500, Bsq.BET010, Bsq.BET110, Bsq.BET210, Bsq.BET310, Bsq.BET410, Bsq.BET020, Bsq.BET120, Bsq.BET220, Bsq.BET320, Bsq.BET030, Bsq.BET130, Bsq.BET230, Bsq.BET040, Bsq.BET140, Bsq.BET050, Bsq.BET001, Bsq.BET101, Bsq.BET201, Bsq.BET301, Bsq.BET011, Bsq.BET111, Bsq.BET211, Bsq.BET021, Bsq.BET121, Bsq.BET031, Bsq.BET002, Bsq.BET102, Bsq.BET012, Bsq.BET003, tt, pp, CTu, Zu]
  linear_combination (((2055510329455712385259 : ℝ)/17582520000000000000) + ((-62140943472882965621 : ℝ)/879126000000000000) * ss 30 + ((268605920021 : ℝ)/10000000000) * ss 30 ^ 2 + ((-45221697773 : ℝ)/10000000000) * ss 30 ^ 3) * ss30_sq

lemma stifBLin :
    Stif.bRaw (ss 30) (tt 10) (pp 1000) * Stif.r1 (pp 1000) = ((158145653114281763000926482748972986493891329373557043 : ℝ)/824386692134400000000000000000000000000000000000000) + ((-3167341759448151752811796623074699877641324707423 : ℝ)/20609667303360000000000000000000000000000000000) * ss 30 := by
  simp only [Stif.r1, Stif.rdot, Stif.aRaw, Stif.bRaw, Stif.rz3, Stif.rz2, Stif.rz1, Stif.rz0, Stif.R10, Stif.R11, Stif.R12, Stif.R13, Stif.R14, Stif.R15, Stif.R000, Stif.R100, Stif.R200, Stif.R300, Stif.R400, Stif.R500, Stif.R600, Stif.R010, Stif.R110, Stif.R210, Stif.R310, Stif.R410, Stif.R510, Stif.R020, Stif.R120, Stif.R220, Stif.R320, Stif.R420, Stif.R030, Stif.R130, Stif.R230, Stif.R330, Stif.R040, Stif.R140, Stif.R240, Stif.R050, Stif.R150, Stif.R060, Stif.R001, Stif.R101, Stif.R201, Stif.R301, Stif.R401, Stif.R011, Stif.R111, Stif.R211, Stif.R311, Stif.R021, Stif.R121, Stif.R221, Stif.R031, Stif.R131, Stif.R041, Stif.R002, Stif.R102, Stif.R202, Stif.R012, Stif.R112, Stif.R022, Stif.R003, Stif.R103, Stif.R013, Stif.ALP000, Stif.ALP100, Stif.ALP200, Stif.ALP300, Stif.ALP400, Stif.ALP500, Stif.ALP010, Stif.ALP110, Stif.ALP210, Stif.ALP310, Stif.ALP410, Stif.ALP020, Stif.ALP120, Stif.ALP220, Stif.ALP320, Stif.ALP030, Stif.ALP130, Stif.ALP230, Stif.ALP040, Stif.ALP140, Stif.ALP050, Stif.ALP001, Stif.ALP101, Stif.ALP201, Stif.ALP301, Stif.ALP011, Stif.ALP111, Stif.ALP211, Stif.ALP021, Stif.ALP121, Stif.ALP031, Stif.ALP002, Stif.ALP102, Stif.ALP012, Stif.ALP003, Stif.BET000, Stif.BET100, Stif.BET200, Stif.BET300, Stif.BET400, Stif.BET500, Stif.BET010, Stif.BET110, Stif.BET210, Stif.BET310, Stif.BET410, Stif.BET020, Stif.BET120, Stif.BET220, Stif.BET320, Stif.BET030, Stif.BET130, Stif.BET230, Stif.BET040, Stif.BET140, Stif.BET050, Stif.BET001, Stif.BET101, Stif.BET201, Stif.BET301, Stif.BET011, Stif.BET111, Stif.BET211, Stif.BET021, Stif.BET121, Stif.BET031, Stif.BET002, Stif.BET102, Stif.BET012, Stif.BET003, tt, pp, CTu, Zu]
  linear_combination (((6884445702303297539029121982862221860740519 : ℝ)/58608400000000000000000000000000000000000) + ((-832504984012757887776981763714352358118007 : ℝ)/11721680000000000000000000000000000000000) * ss 30 + ((67472071695749456118694978818747 : ℝ)/2500000000000000000000000000000) * ss 30 ^ 2 + ((-227186600773883018985795241527213 : ℝ)/50000000000000000000000000000000) * ss 30 ^ 3) * ss30_sq

lemma v55ALin :
    V55.a (ss 30) (tt 10) (pp 1000) = ((-91254466429809801086033278121 : ℝ)/61829001910080000000000000000000000) + ((275910749624761903413826021 : ℝ)/206096673033600000000000000000000) * ss 30 := by
  simp only [V55.v0, V55.delta, V55.a, V55.b, V55.vp3, V55.vp2, V55.vp1, V55.vp0, V55.ap3, V55.ap2, V55.ap1, V55.ap0, V55.bp3, V55.bp2, V55.bp1, V55.bp0, V55.V00, V55.V01, V55.V02, V55.V03, V55.V04, V55.V05, V55.V000, V55.V100, V55.V200, V55.V300, V55.V400, V55.V500, V55.V600, V55.V010, V55.V110, V55.V210, V55.V310, V55.V410, V55.V510, V55.V020, V55.V120, V55.V220, V55.V320, V55.V420, V55.V030, V55.V130, V55.V230, V55.V330, V55.V040, V55.V140, V55.V240, V55.V050, V55.V150, V55.V060, V55.V001, V55.V101, V55.V201, V55.V301, V55.V401, V55.V011, V55.V111, V55.V211, V55.V311, V55.V021, V55.V121, V55.V221, V55.V031, V55.V131, V55.V041, V55.V002, V55.V102, V55.V202, V55.V012, V55.V112, V55.V022, V55.V003, V55.V103, V55.V013, V55.A000, V55.A100, V55.A200, V55.A300, V55.A400, V55.A500, V55.A010, V55.A110, V55.A210, V55.A310, V55.A410, V55.A020, V55.A120, V55.A220, V55.A320, V55.A030, V55.A130, V55.A230, V55.A040, V55.A140, V55.A050, V55.A001, V55.A101, V55.A201, V55.A301, V55.A011, V55.A111, V55.A211, V55.A021, V55.A121, V55.A031, V55.A002, V55.A102, V55.A012, V55.A003, V55.B000, V55.B100, V55.B200, V55.B300, V55.B400, V55.B500, V55.B010, V55.B110, V55.B210, V55.B310, V55.B410, V55.B020, V55.B120, V55.B220, V55.B320, V55.B030, V55.B130, V55.B230, V55.B040, V55.B140, V55.B050, V55.B001, V55.B101, V55.B201, V55.B301, V55.B011, V55.B111, V55.B211, V55.B021, V55.B121, V55.B031, V55.B002, V55.B102, V55.B012, V55.B003, tt, pp, CTu, Zu]
  linear_combination (((-256450876528523573 : ℝ)/281320320000000000000000) + ((212363855496037273 : ℝ)/366302500000000000000000) * ss 30 + ((-20532663421 : ℝ)/100000000000000000) * ss 30 ^ 2 + ((6719956977 : ℝ)/250000000000000000) * ss 30 ^ 3) * ss30_sq

lemma v55BLin :
    V55.b (ss 30) (tt 10) (pp 1000) = ((654680560231201027771334238221 : ℝ)/7728625238760000000000000000000000) + ((-20861750363212922083595973767 : ℝ)/309145009550400000000000000000000) * ss 30 := by
  simp only [V55.v0, V55.delta, V55.a, V55.b, V55.vp3, V55.vp2, V55.vp1, V55.vp0, V55.ap3, V55.ap2, V55.ap1, V55.ap0, V55.bp3, V55.bp2, V55.bp1, V55.bp0, V55.V00, V55.V01, V55.V02, V55.V03, V55.V04, V55.V05, V55.V000, V55.V100, V55.V200, V55.V300, V55.V400, V55.V500, V55.V600, V55.V010, V55.V110, V55.V210, V55.V310, V55.V410, V55.V510, V55.V020, V55.V120, V55.V220, V55.V320, V55.V420, V55.V030, V55.V130, V55.V230, V55.V330, V55.V040, V55.V140, V55.V240, V55.V050, V55.V150, V55.V060, V55.V001, V55.V101, V55.V201, V55.V301, V55.V401, V55.V011, V55.V111, V55.V211, V55.V311, V55.V021, V55.V121, V55.V221, V55.V031, V55.V131, V55.V041, V55.V002, V55.V102, V55.V202, V55.V012, V55.V112, V55.V022, V55.V003, V55.V103, V55.V013, V55.A000, V55.A100, V55.A200, V55.A300, V55.A400, V55.A500, V55.A010, V55.A110, V55.A210, V55.A310, V55.A410, V55.A020, V55.A120, V55.A220, V55.A320, V55.A030, V55.A130, V55.A230, V55.A040, V55.A140, V55.A050, V55.A001, V55.A101, V55.A201, V55.A301, V55.A011, V55.A111, V55.A211, V55.A021, V55.A121, V55.A031, V55.A002, V55.A102, V55.A012, V55.A003, V55.B000, V55.B100, V55.B200, V55.B300, V55.B400, V55.B500, V55.B010, V55.B110, V55.B210, V55.B310, V55.B410, V55.B020, V55.B120, V55.B220, V55.B320, V55.B030, V55.B130, V55.B230, V55.B040, V55.B140, V55.B050, V55.B001, V55.B101, V55.B201, V55.B301, V55.B011, V55.B111, V55.B211, V55.B021, V55.B121, V55.B031, V55.B002, V55.B102, V55.B012, V55.B003, tt, pp, CTu, Zu]
  linear_combination (((7378089030664962588863 : ℝ)/140660160000000000000000000) + ((-116028493456900509203 : ℝ)/3516504000000000000000000) * ss 30 + ((26720331822907 : ℝ)/2000000000000000000) * ss 30 ^ 2 + ((-6098546699 : ℝ)/2500000000000000) * ss 30 ^ 3) * ss30_sq

lemma v75ALin :
    V75.a (ss 30) (tt 10) (pp 1000) = ((-522218239641539775274602651631 : ℝ)/309145009550400000000000000000000000) + ((15565316574177473335693794163 : ℝ)/10304833651680000000000000000000000) * ss 30 := by
  simp only [V75.v0, V75.delta, V75.a, V75.b, V75.vp5, V75.vp4, V75.vp3, V75.vp2, V75.vp1, V75.vp0, V75.ap4, V75.ap3, V75.ap2, V75.ap1, V75.ap0, V75.bp4, V75.bp3, V75.bp2, V75.bp1, V75.bp0, V75.V00, V75.V01, V75.V02, V75.V03, V75.V04, V75.V05, V75.V000, V75.V100, V75.V200, V75.V300, V75.V400, V75.V500, V75.V600, V75.V010, V75.V110, V75.V210, V75.V310, V75.V410, V75.V510, V75.V020, V75.V120, V75.V220, V75.V320, V75.V420, V75.V030, V75.V130, V75.V230, V75.V330, V75.V040, V75.V140, V75.V240, V75.V050, V75.V150, V75.V060, V75.V001, V75.V101, V75.V201, V75.V301, V75.V401, V75.V501, V75.V011, V75.V111, V75.V211, V75.V311, V75.V411, V75.V021, V75.V121, V75.V221, V75.V321, V75.V031, V75.V131, V75.V231, V75.V041, V75.V141, V75.V051, V75.V002, V75.V102, V75.V202, V75.V302, V75.V402, V75.V012, V75.V112, V75.V212, V75.V312, V75.V022, V75.V122, V75.V222, V75.V032, V75.V132, V75.V042, V75.V003, V75.V103, V75.V203, V75.V013, V75.V113, V75.V023, V75.V004, V75.V104, V75.V014, V75.V005, V75.A000, V75.A100, V75.A200, V75.A300, V75.A400, V75.A500, V75.A010, V75.A110, V75.A210, V75.A310, V75.A410, V75.A020, V75.A120, V75.A220, V75.A320, V75.A030, V75.A130, V75.A230, V75.A040, V75.A140, V75.A050, V75.A001, V75.A101, V75.A201, V75.A301, V75.A401, V75.A011, V75.A111, V75.A211, V75.A311, V75.A021, V75.A121, V75.A221, V75.A031, V75.A131, V75.A041, V75.A002, V75.A102, V75.A202, V75.A302, V75.A012, V75.A112, V75.A212, V75.A022, V75.A122, V75.A032, V75.A003, V75.A103, V75.A013, V75.A004, V75.B000, V75.B100, V75.B200, V75.B300, V75.B400, V75.B500, V75.B010, V75.B110, V75.B210, V75.B310, V75.B410, V75.B020, V75.B120, V75.B220, V75.B320, V75.B030, V75.B130, V75.B230, V75.B040, V75.B140, V75.B050, V75.B001, V75.B101, V75.B201, V75.B301, V75.B401, V75.B011, V75.B111, V75.B211, V75.B311, V75.B021, V75.B121, V75.B221, V75.B031, V75.B131, V75.B041, V75.B002, V75.B102, V75.B202, V75.B302, V75.B012, V75.B112, V75.B212, V75.B022, V75.B122, V75.B032, V75.B003, V75.B103, V75.B013, V75.B004, tt, pp, CTu, Zu]
  linear_combination (((-367619126255296067803 : ℝ)/351650400000000000000000000) + ((19581326399653709611 : ℝ)/29304200000000000000000000) * ss 30 + ((-1526648527 : ℝ)/6250000000000000) * ss 30 ^ 2 + ((17330743227 : ℝ)/500000000000000000) * ss 30 ^ 3) * ss30_sq

lemma v75BLin :
    V75.b (ss 30) (tt 10) (pp 1000) = ((17150655211403361626099301264779 : ℝ)/206096673033600000000000000000000000) + ((-2049039771693244406204100412817 : ℝ)/30914500955040000000000000000000000) * ss 30 := by
  simp only [V75.v0, V75.delta, V75.a, V75.b, V75.vp5, V75.vp4, V75.vp3, V75.vp2, V75.vp1, V75.vp0, V75.ap4, V75.ap3, V75.ap2, V75.ap1, V75.ap0, V75.bp4, V75.bp3, V75.bp2, V75.bp1, V75.bp0, V75.V00, V75.V01, V75.V02, V75.V03, V75.V04, V75.V05, V75.V000, V75.V100, V75.V200, V75.V300, V75.V400, V75.V500, V75.V600, V75.V010, V75.V110, V75.V210, V75.V310, V75.V410, V75.V510, V75.V020, V75.V120, V75.V220, V75.V320, V75.V420, V75.V030, V75.V130, V75.V230, V75.V330, V75.V040, V75.V140, V75.V240, V75.V050, V75.V150, V75.V060, V75.V001, V75.V101, V75.V201, V75.V301, V75.V401, V75.V501, V75.V011, V75.V111, V75.V211, V75.V311, V75.V411, V75.V021, V75.V121, V75.V221, V75.V321, V75.V031, V75.V131, V75.V231, V75.V041, V75.V141, V75.V051, V75.V002, V75.V102, V75.V202, V75.V302, V75.V402, V75.V012, V75.V112, V75.V212, V75.V312, V75.V022, V75.V122, V75.V222, V75.V032, V75.V132, V75.V042, V75.V003, V75.V103, V75.V203, V75.V013, V75.V113, V75.V023, V75.V004, V75.V104, V75.V014, V75.V005, V75.A000, V75.A100, V75.A200, V75.A300, V75.A400, V75.A500, V75.A010, V75.A110, V75.A210, V75.A310, V75.A410, V75.A020, V75.A120, V75.A220, V75.A320, V75.A030, V75.A130, V75.A230, V75.A040, V75.A140, V75.A050, V75.A001, V75.A101, V75.A201, V75.A301, V75.A401, V75.A011, V75.A111, V75.A211, V75.A311, V75.A021, V75.A121, V75.A221, V75.A031, V75.A131, V75.A041, V75.A002, V75.A102, V75.A202, V75.A302, V75.A012, V75.A112, V75.A212, V75.A022, V75.A122, V75.A032, V75.A003, V75.A103, V75.A013, V75.A004, V75.B000, V75.B100, V75.B200, V75.B300, V75.B400, V75.B500, V75.B010, V75.B110, V75.B210, V75.B310, V75.B410, V75.B020, V75.B120, V75.B220, V75.B320, V75.B030, V75.B130, V75.B230, V75.B040, V75.B140, V75.B050, V75.B001, V75.B101, V75.B201, V75.B301, V75.B401, V75.B011, V75.B111, V75.B211, V75.B311, V75.B021, V75.B121, V75.B221, V75.B031, V75.B131, V75.B041, V75.B002, V75.B102, V75.B202, V75.B302, V75.B012, V75.B112, V75.B212, V75.B022, V75.B122, V75.B032, V75.B003, V75.B103, V75.B013, V75.B004, tt, pp, CTu, Zu]
  linear_combination (((1509460173455896020493 : ℝ)/29304200000000000000000000) + ((-711288950294165426003 : ℝ)/21978150000000000000000000) * ss 30 + ((52320241622469 : ℝ)/4000000000000000000) * ss 30 ^ 2 + ((-1489808849 : ℝ)/625000000000000) * ss 30 ^ 3) * ss30_sq


/-! ### Bounds on each output at the check point -/

lemma bsqRhoBd : |(polyTEOS10_bsq 30 10 1000).rho - 1027.45140| ≤ 5e-5 := by
  have hx : (polyTEOS10_bsq 30 10 1000).rho = Bsq.r (ss 30) (tt 10) (pp 1000) + Bsq.r0 (pp 1000) := rfl
  rw [hx, bsqRhoLin, abs_le]
  constructor <;> linarith [ss30_lo, ss30_hi]

lemma bsqABd : |(polyTEOS10_bsq 30 10 1000).a - 0.179646281| ≤ 5e-9 := by
  have hx : (polyTEOS10_bsq 30 10 1000).a = Bsq.a (ss 30) (tt 10) (pp 1000) := rfl
  rw [hx, bsqALin, abs_le]
  constructor <;> linarith [ss30_lo, ss30_hi]

lemma bsqBBd : |(polyTEOS10_bsq 30 10 1000).b - 0.765555368| ≤ 5e-9 := by
  have hx : (polyTEOS10_bsq 30 10 1000).b = Bsq.b (ss 30) (tt 10) (pp 1000) / ss 30 := rfl
  have h1 : (0.765555368078469227494307836108 : ℝ) ≤ Bsq.b (ss 30) (tt 10) (pp 1000) / ss 30 := by
    rw [le_div_iff₀ ss30_pos, bsqBLin]
    linarith [ss30_lo, ss30_hi]
  have h2 : Bsq.b (ss 30) (tt 10) (pp 1000) / ss 30 ≤ (0.765555368078493978749706249352 : ℝ) := by
    rw [div_le_iff₀ ss30_pos, bsqBLin]
    linarith [ss30_lo, ss30_hi]
  rw [hx, abs_le]
  constructor <;> linarith

lemma bsqR0Bd : |(polyTEOS10_bsq 30 10 1000).r0 - 4.59763035| ≤ 5e-8 := by
  have hx : (polyTEOS10_bsq 30 10 1000).r0 = Bsq.r0 (pp 1000) := rfl
  rw [hx]
  simp only [Bsq.r0, Bsq.R00, Bsq.R01, Bsq.R02, Bsq.R03, Bsq.R04, Bsq.R05, pp, Zu]
  rw [abs_le]
  constructor <;> norm_num

lemma bsqRBd : |(polyTEOS10_bsq 30 10 1000).r - 1022.85377| ≤ 5e-4 := by
  have hx : (polyTEOS10_bsq 30 10 1000).r = Bsq.r (ss 30) (tt 10) (pp 1000) := rfl
  rw [hx, bsqRLin, abs_le]
  constructor <;> linarith [ss30_lo, ss30_hi]

lemma stifRhoBd : |(polyTEOS10_stif 30 10 1000).rho - 1027.45140| ≤ 5e-5 := by
  have hx : (polyTEOS10_stif 30 10 1000).rho = Stif.r1 (pp 1000) * Stif.rdot (ss 30) (tt 10) (pp 1000) := rfl
  rw [hx, stifRhoLin, abs_le]
  constructor <;> linarith [ss30_lo, ss30_hi]

lemma stifABd : |(polyTEOS10_stif 30 10 1000).a - 0.179649406| ≤ 5e-9 := by
  have hx : (polyTEOS10_stif 30 10 1000).a = Stif.r1 (pp 1000) * Stif.aRaw (ss 30) (tt 10) (pp 1000) := rfl
  rw [hx, stifALin, abs_le]
  constructor <;> linarith [ss30_lo, ss30_hi]

lemma stifBBd : |(polyTEOS10_stif 30 10 1000).b - 0.765554495| ≤ 5e-9 := by
  have hx : (polyTEOS10_stif 30 10 1000).b = Stif.bRaw (ss 30) (tt 10) (pp 1000) * Stif.r1 (pp 1000) / ss 30 := rfl
  have h1 : (0.765554495172362206312852734971 : ℝ) ≤ Stif.bRaw (ss 30) (tt 10) (pp 1000) * Stif.r1 (pp 1000) / ss 30 := by
    rw [le_div_iff₀ ss30_pos, stifBLin]
    linarith [ss30_lo, ss30_hi]
  have h2 : Stif.bRaw (ss 30) (tt 10) (pp 1000) * Stif.r1 (pp 1000) / ss 30 ≤ (0.765554495172387075847308087851 : ℝ) := by
    rw [div_le_iff₀ ss30_pos, stifBLin]
    linarith [ss30_lo, ss30_hi]
  rw [hx, abs_le]
  constructor <;> linarith

lemma stifR1Bd : |(polyTEOS10_stif 30 10 1000).r1 - 1.00447333| ≤ 5e-8 := by
  have hx : (polyTEOS10_stif 30 10 1000).r1 = Stif.r1 (pp 1000) := rfl
  rw [hx]
  simp only [Stif.r1, Stif.R10, Stif.R11, Stif.R12, Stif.R13, Stif.R14, Stif.R15, pp, Zu]
  rw [abs_le]
  constructor <;> norm_num

lemma stifRdotBd : |(polyTEOS10_stif 30 10 1000).rdot - 1022.87574| ≤ 5e-4 := by
  have hx : (polyTEOS10_stif 30 10 1000).rdot = Stif.rdot (ss 30) (tt 10) (pp 1000) := rfl
  rw [hx, stifRdotLin, abs_le]
  constructor <;> linarith [ss30_lo, ss30_hi]

lemma v55SpecvolBd : 5e-6 < |(polyTEOS10_55t 30 10 1000).specvol - 9.732820466e-4| := by
  have hx : (polyTEOS10_55t 30 10 1000).specvol = V55.v0 (pp 1000) + V55.delta (ss 30) (tt 10) (pp 1000) := rfl
  rw [hx, v55SpecvolLin, lt_abs]
  right
  linarith [ss30_lo, ss30_hi]

lemma v55AlphaBd : 1e-5 < |(polyTEOS10_55t 30 10 1000).alpha - 1.748553121e-4| := by
  have hx : (polyTEOS10_55t 30 10 1000).alpha = V55.a (ss 30) (tt 10) (pp 1000) / (V55.v0 (pp 1000) + V55.delta (ss 30) (tt 10) (pp 1000)) := rfl
  have hvpos : 0 < V55.v0 (pp 1000) + V55.delta (ss 30) (tt 10) (pp 1000) := by
    rw [v55SpecvolLin]; linarith [ss30_lo, ss30_hi]
  have h1 : (0.000193166396150814835588330946 : ℝ) ≤ V55.a (ss 30) (tt 10) (pp 1000) / (V55.v0 (pp 1000) + V55.delta (ss 30) (tt 10) (pp 1000)) := by
    rw [le_div_iff₀ hvpos, v55ALin, v55SpecvolLin]
    linarith [ss30_lo, ss30_hi]
  have h2 : V55.a (ss 30) (tt 10) (pp 1000) / (V55.v0 (pp 1000) + V55.delta (ss 30) (tt 10) (pp 1000)) ≤ (0.000193166396150815197449502566 : ℝ) := by
    rw [div_le_iff₀ hvpos, v55ALin, v55SpecvolLin]
    linarith [ss30_lo, ss30_hi]
  rw [hx, lt_abs]
  left
  linarith

lemma v55BetaBd : 3e-6 < |(polyTEOS10_55t 30 10 1000).beta - 7.450974025e-4| := by
  have hx : (polyTEOS10_55t 30 10 1000).beta = V55.b (ss 30) (tt 10) (pp 1000) / ss 30 / (V55.v0 (pp 1000) + V55.delta (ss 30) (tt 10) (pp 1000)) := rfl
  have hsd : ss 30 * (V55.v0 (pp 1000) + V55.delta (ss 30) (tt 10) (pp 1000)) = ((-381349143847897062122395960397023 : ℝ)/115958364017495445504000000000000000) + ((4912726144237845695145126711246832183181 : ℝ)/1358887078330024752000000000000000000000000) * ss 30 := by
    rw [v55SpecvolLin]
    linear_combination ((-1757369326488004894573253273719 : ℝ)/824386692134400000000000000000000) * ss30_sq
  have hsdpos : 0 < ss 30 * (V55.v0 (pp 1000) + V55.delta (ss 30) (tt 10) (pp 1000)) := by
    rw [hsd]; linarith [ss30_lo, ss30_hi]
  have h1 : (0.000741778862977944106495564818 : ℝ) ≤ V55.b (ss 30) (tt 10) (pp 1000) / ss 30 / (V55.v0 (pp 1000) + V55.delta (ss 30) (tt 10) (pp 1000)) := by
    rw [div_div, le_div_iff₀ hsdpos, v55BLin, hsd]
    linarith [ss30_lo, ss30_hi]
  have h2 : V55.b (ss 30) (tt 10) (pp 1000) / ss 30 / (V55.v0 (pp 1000) + V55.delta (ss 30) (tt 10) (pp 1000)) ≤ (0.000741778862977955783812098106 : ℝ) := by
    rw [div_div, div_le_iff₀ hsdpos, v55BLin, hsd]
    linarith [ss30_lo, ss30_hi]
  rw [hx, lt_abs]
  right
  linarith

lemma v55V0Bd : |(polyTEOS10_55t 30 10 1000).v0 - -4.333016903e-6| ≤ 5e-14 := by
  have hx : (polyTEOS10_55t 30 10 1000).v0 = V55.v0 (pp 1000) := rfl
  rw [hx]
  simp only [V55.v0, V55.V00, V55.V01, V55.V02, V55.V03, V55.V04, V55.V05, pp, Zu]
  rw [abs_le]
  constructor <;> norm_num

lemma v55DeltaBd : 5e-6 < |(polyTEOS10_55t 30 10 1000).delta - 9.776150635e-4| := by
  have hx : (polyTEOS10_55t 30 10 1000).delta = V55.delta (ss 30) (tt 10) (pp 1000) := rfl
  rw [hx, v55DeltaLin, lt_abs]
  right
  linarith [ss30_lo, ss30_hi]

lemma v75SpecvolBd : 5e-6 < |(polyTEOS10_75t 30 10 1000).specvol - 9.732819628e-4| := by
  have hx : (polyTEOS10_75t 30 10 1000).specvol = V75.v0 (pp 1000) + V75.delta (ss 30) (tt 10) (pp 1000) := rfl
  rw [hx, v75SpecvolLin, lt_abs]
  right
  linarith [ss30_lo, ss30_hi]

lemma v75AlphaBd : 1e-5 < |(polyTEOS10_75t 30 10 1000).alpha - 1.748439401e-4| := by
  have hx : (polyTEOS10_75t 30 10 1000).alpha = V75.a (ss 30) (tt 10) (pp 1000) / (V75.v0 (pp 1000) + V75.delta (ss 30) (tt 10) (pp 1000)) := rfl
  have hvpos : 0 < V75.v0 (pp 1000) + V75.delta (ss 30) (tt 10) (pp 1000) := by
    rw [v75SpecvolLin]; linarith [ss30_lo, ss30_hi]
  have h1 : (0.000193164808326868771183092012 : ℝ) ≤ V75.a (ss 30) (tt 10) (pp 1000) / (V75.v0 (pp 1000) + V75.delta (ss 30) (tt 10) (pp 1000)) := by
    rw [le_div_iff₀ hvpos, v75ALin, v75SpecvolLin]
    linarith [ss30_lo, ss30_hi]
  have h2 : V75.a (ss 30) (tt 10) (pp 1000) / (V75.v0 (pp 1000) + V75.delta (ss 30) (tt 10) (pp 1000)) ≤ (0.000193164808326869167156031591 : ℝ) := by
    rw [div_le_iff₀ hvpos, v75ALin, v75SpecvolLin]
    linarith [ss30_lo, ss30_hi]
  rw [hx, lt_abs]
  left
  linarith

lemma v75BetaBd : 3e-6 < |(polyTEOS10_75t 30 10 1000).beta - 7.451213159e-4| := by
  have hx : (polyTEOS10_75t 30 10 1000).beta = V75.b (ss 30) (tt 10) (pp 1000) / ss 30 / (V75.v0 (pp 1000) + V75.delta (ss 30) (tt 10) (pp 1000)) := rfl
  have hsd : ss 30 * (V75.v0 (pp 1000) + V75.delta (ss 30) (tt 10) (pp 1000)) = ((-56268547466084610341138310642247 : ℝ)/17393754602624316825600000000000000) + ((269666052943662080845056233322448580387 : ℝ)/75493726573890264000000000000000000000000) * ss 30 := by
    rw [v75SpecvolLin]
    linear_combination ((-259302062055689448576674242591 : ℝ)/123658003820160000000000000000000) * ss30_sq
  have hsdpos : 0 < ss 30 * (V75.v0 (pp 1000) + V75.delta (ss 30) (tt 10) (pp 1000)) := by
    rw [hsd]; linarith [ss30_lo, ss30_hi]
  have h1 : (0.000741791214127426016922757189 : ℝ) ≤ V75.b (ss 30) (tt 10) (pp 1000) / ss 30 / (V75.v0 (pp 1000) + V75.delta (ss 30) (tt 10) (pp 1000)) := by
    rw [div_div, le_div_iff₀ hsdpos, v75BLin, hsd]
    linarith [ss30_lo, ss30_hi]
  have h2 : V75.b (ss 30) (tt 10) (pp 1000) / ss 30 / (V75.v0 (pp 1000) + V75.delta (ss 30) (tt 10) (pp 1000)) ≤ (0.000741791214127437488994158795 : ℝ) := by
    rw [div_div, div_le_iff₀ hsdpos, v75BLin, hsd]
    linarith [ss30_lo, ss30_hi]
  rw [hx, lt_abs]
  right
  linarith

lemma v75V0Bd : |(polyTEOS10_75t 30 10 1000).v0 - -4.333016903e-6| ≤ 5e-14 := by
  have hx : (polyTEOS10_75t 30 10 1000).v0 = V75.v0 (pp 1000) := rfl
  rw [hx]
  simp only [V75.v0, V75.V00, V75.V01, V75.V02, V75.V03, V75.V04, V75.V05, pp, Zu]
  rw [abs_le]
  constructor <;> norm_num

lemma v75DeltaBd : 5e-6 < |(polyTEOS10_75t 30 10 1000).delta - 9.776149797e-4| := by
  have hx : (polyTEOS10_75t 30 10 1000).delta = V75.delta (ss 30) (tt 10) (pp 1000) := rfl
  rw [hx, v75DeltaLin, lt_abs]
  right
  linarith [ss30_lo, ss30_hi]


/-- Claim C3 (amended): each `ALP` coefficient of `polyTEOS10_bsq` equals
`-(j+1)/40` times the `R` coefficient with the same `ss`- and `pp`-powers and
`tt`-power `j+1` — not exactly, but up to the 11-significant-digit rounding of
the published table: the absolute difference is at most `5e-11` for every one
of the 35 pairs (and is zero for only 8 of them).  Hence the thermal-expansion
output `a` is the analytic derivative `-d(r0+r)/dCT` only up to this
coefficient rounding. -/
theorem alpDerivative_rounded :
    |Bsq.ALP000 + (1/40) * Bsq.R010| ≤ 5e-11 ∧
    |Bsq.ALP100 + (1/40) * Bsq.R110| ≤ 5e-11 ∧
    |Bsq.ALP200 + (1/40) * Bsq.R210| ≤ 5e-11 ∧
    |Bsq.ALP300 + (1/40) * Bsq.R310| ≤ 5e-11 ∧
    |Bsq.ALP400 + (1/40) * Bsq.R410| ≤ 5e-11 ∧
    |Bsq.ALP500 + (1/40) * Bsq.R510| ≤ 5e-11 ∧
    |Bsq.ALP010 + (2/40) * Bsq.R020| ≤ 5e-11 ∧
    |Bsq.ALP110 + (2/40) * Bsq.R120| ≤ 5e-11 ∧
    |Bsq.ALP210 + (2/40) * Bsq.R220| ≤ 5e-11 ∧
    |Bsq.ALP310 + (2/40) * Bsq.R320| ≤ 5e-11 ∧
    |Bsq.ALP410 + (2/40) * Bsq.R420| ≤ 5e-11 ∧
    |Bsq.ALP020 + (3/40) * Bsq.R030| ≤ 5e-11 ∧
    |Bsq.ALP120 + (3/40) * Bsq.R130| ≤ 5e-11 ∧
    |Bsq.ALP220 + (3/40) * Bsq.R230| ≤ 5e-11 ∧
    |Bsq.ALP320 + (3/40) * Bsq.R330| ≤ 5e-11 ∧
    |Bsq.ALP030 + (4/40) * Bsq.R040| ≤ 5e-11 ∧
    |Bsq.ALP130 + (4/40) * Bsq.R140| ≤ 5e-11 ∧
    |Bsq.ALP230 + (4/40) * Bsq.R240| ≤ 5e-11 ∧
    |Bsq.ALP040 + (5/40) * Bsq.R050| ≤ 5e-11 ∧
    |Bsq.ALP140 + (5/40) * Bsq.R150| ≤ 5e-11 ∧
    |Bsq.ALP050 + (6/40) * Bsq.R060| ≤ 5e-11 ∧
    |Bsq.ALP001 + (1/40) * Bsq.R011| ≤ 5e-11 ∧
    |Bsq.ALP101 + (1/40) * Bsq.R111| ≤ 5e-11 ∧
    |Bsq.ALP201 + (1/40) * Bsq.R211| ≤ 5e-11 ∧
    |Bsq.ALP301 + (1/40) * Bsq.R311| ≤ 5e-11 ∧
    |Bsq.ALP011 + (2/40) * Bsq.R021| ≤ 5e-11 ∧
    |Bsq.ALP111 + (2/40) * Bsq.R121| ≤ 5e-11 ∧
    |Bsq.ALP211 + (2/40) * Bsq.R221| ≤ 5e-11 ∧
    |Bsq.ALP021 + (3/40) * Bsq.R031| ≤ 5e-11 ∧
    |Bsq.ALP121 + (3/40) * Bsq.R131| ≤ 5e-11 ∧
    |Bsq.ALP031 + (4/40) * Bsq.R041| ≤ 5e-11 ∧
    |Bsq.ALP002 + (1/40) * Bsq.R012| ≤ 5e-11 ∧
    |Bsq.ALP102 + (1/40) * Bsq.R112| ≤ 5e-11 ∧
    |Bsq.ALP012 + (2/40) * Bsq.R022| ≤ 5e-11 ∧
    |Bsq.ALP003 + (1/40) * Bsq.R013| ≤ 5e-11 := by
  simp only [Bsq.ALP000, Bsq.R010, Bsq.ALP100, Bsq.R110, Bsq.ALP200, Bsq.R210, Bsq.ALP300, Bsq.R310, Bsq.ALP400, Bsq.R410, Bsq.ALP500, Bsq.R510, Bsq.ALP010, Bsq.R020, Bsq.ALP110, Bsq.R120, Bsq.ALP210, Bsq.R220, Bsq.ALP310, Bsq.R320, Bsq.ALP410, Bsq.R420, Bsq.ALP020, Bsq.R030, Bsq.ALP120, Bsq.R130, Bsq.ALP220, Bsq.R230, Bsq.ALP320, Bsq.R330, Bsq.ALP030, Bsq.R040, Bsq.ALP130, Bsq.R140, Bsq.ALP230, Bsq.R240, Bsq.ALP040, Bsq.R050, Bsq.ALP140, Bsq.R150, Bsq.ALP050, Bsq.R060, Bsq.ALP001, Bsq.R011, Bsq.ALP101, Bsq.R111, Bsq.ALP201, Bsq.R211, Bsq.ALP301, Bsq.R311, Bsq.ALP011, Bsq.R021, Bsq.ALP111, Bsq.R121, Bsq.ALP211, Bsq.R221, Bsq.ALP021, Bsq.R031, Bsq.ALP121, Bsq.R131, Bsq.ALP031, Bsq.R041, Bsq.ALP002, Bsq.R012, Bsq.ALP102, Bsq.R112, Bsq.ALP012, Bsq.R022, Bsq.ALP003, Bsq.R013, abs_le]
  norm_num

/-- Claim C3, counterexample: the claimed identity is not exact.  For the pair
`ALP010` / `R020` (`ss`-power 0, `tt`-power 1, `pp`-power 0, so `j = 1`), the
literal coefficient `1.8537085209` differs from `-(2/40) * (-3.7074170417e+01)
= 1.85370852085` by `5e-11`. -/
theorem alpDerivative_exact_counterexample :
    ¬ Bsq.ALP010 = -((1+1)/40) * Bsq.R020 := by
  norm_num [Bsq.ALP010, Bsq.R020]


/-! ### Claim theorems -/

/-- Claim C1: at the check point SA = 30 g/kg, CT = 10 degC, p = 1000 dbar, the
two density evaluators return the published check values to at least 8
significant figures, but the two specific-volume evaluators do **not**: except
for the pressure-only profile `v0`, every output of `polyTEOS10_55t` and
`polyTEOS10_75t` misses its documented check value by far more than the
8-significant-figure tolerance (e.g. `specvol` is about `9.67511e-4` instead of
the documented `9.732820466e-4`).  The code uses the salinity offset
`deltaS = 32` in the specific-volume evaluators where the published fit uses
`24`; with `24` the documented values are reproduced. -/
theorem checkValues_30_10_1000 :
    (|(polyTEOS10_bsq 30 10 1000).rho - 1027.45140| ≤ 5e-5 ∧
     |(polyTEOS10_bsq 30 10 1000).a - 0.179646281| ≤ 5e-9 ∧
     |(polyTEOS10_bsq 30 10 1000).b - 0.765555368| ≤ 5e-9 ∧
     |(polyTEOS10_bsq 30 10 1000).r0 - 4.59763035| ≤ 5e-8 ∧
     |(polyTEOS10_bsq 30 10 1000).r - 1022.85377| ≤ 5e-4) ∧
    (|(polyTEOS10_stif 30 10 1000).rho - 1027.45140| ≤ 5e-5 ∧
     |(polyTEOS10_stif 30 10 1000).a - 0.179649406| ≤ 5e-9 ∧
     |(polyTEOS10_stif 30 10 1000).b - 0.765554495| ≤ 5e-9 ∧
     |(polyTEOS10_stif 30 10 1000).r1 - 1.00447333| ≤ 5e-8 ∧
     |(polyTEOS10_stif 30 10 1000).rdot - 1022.87574| ≤ 5e-4) ∧
    (5e-6 < |(polyTEOS10_55t 30 10 1000).specvol - 9.732820466e-4| ∧
     1e-5 < |(polyTEOS10_55t 30 10 1000).alpha - 1.748553121e-4| ∧
     3e-6 < |(polyTEOS10_55t 30 10 1000).beta - 7.450974025e-4| ∧
     |(polyTEOS10_55t 30 10 1000).v0 - (-4.333016903e-6)| ≤ 5e-14 ∧
     5e-6 < |(polyTEOS10_55t 30 10 1000).delta - 9.776150635e-4|) ∧
    (5e-6 < |(polyTEOS10_75t 30 10 1000).specvol - 9.732819628e-4| ∧
     1e-5 < |(polyTEOS10_75t 30 10 1000).alpha - 1.748439401e-4| ∧
     3e-6 < |(polyTEOS10_75t 30 10 1000).beta - 7.451213159e-4| ∧
     |(polyTEOS10_75t 30 10 1000).v0 - (-4.333016903e-6)| ≤ 5e-14 ∧
     5e-6 < |(polyTEOS10_75t 30 10 1000).delta - 9.776149797e-4|) :=
  ⟨⟨bsqRhoBd, bsqABd, bsqBBd, bsqR0Bd, bsqRBd⟩,
   ⟨stifRhoBd, stifABd, stifBBd, stifR1Bd, stifRdotBd⟩,
   ⟨v55SpecvolBd, v55AlphaBd, v55BetaBd, v55V0Bd, v55DeltaBd⟩,
   ⟨v75SpecvolBd, v75AlphaBd, v75BetaBd, v75V0Bd, v75DeltaBd⟩⟩

/-- Claim C2: for every input with SA ≥ -32, the outputs of each evaluator
satisfy its documented decomposition identity exactly over the real-number
embedding: `rho = r0 + r` (Boussinesq), `rho = r1 * rdot` (stiffened), and
`specvol = v0 + delta` (both specific-volume evaluators). -/
theorem decomposition_identity (SA CT p : ℝ) (h : -32 ≤ SA) :
    (polyTEOS10_bsq SA CT p).rho
      = (polyTEOS10_bsq SA CT p).r0 + (polyTEOS10_bsq SA CT p).r ∧
    (polyTEOS10_stif SA CT p).rho
      = (polyTEOS10_stif SA CT p).r1 * (polyTEOS10_stif SA CT p).rdot ∧
    (polyTEOS10_55t SA CT p).specvol
      = (polyTEOS10_55t SA CT p).v0 + (polyTEOS10_55t SA CT p).delta ∧
    (polyTEOS10_75t SA CT p).specvol
      = (polyTEOS10_75t SA CT p).v0 + (polyTEOS10_75t SA CT p).delta :=
  ⟨add_comm (Bsq.r (ss SA) (tt CT) (pp p)) (Bsq.r0 (pp p)), rfl, rfl, rfl⟩

/-- Witness for C2 at the concrete input SA = 30, CT = 10, p = 1000. -/
theorem decomposition_identity_witness :
    (polyTEOS10_bsq 30 10 1000).rho
      = (polyTEOS10_bsq 30 10 1000).r0 + (polyTEOS10_bsq 30 10 1000).r ∧
    (polyTEOS10_stif 30 10 1000).rho
      = (polyTEOS10_stif 30 10 1000).r1 * (polyTEOS10_stif 30 10 1000).rdot ∧
    (polyTEOS10_55t 30 10 1000).specvol
      = (polyTEOS10_55t 30 10 1000).v0 + (polyTEOS10_55t 30 10 1000).delta ∧
    (polyTEOS10_75t 30 10 1000).specvol
      = (polyTEOS10_75t 30 10 1000).v0 + (polyTEOS10_75t 30 10 1000).delta :=
  decomposition_identity 30 10 1000 (by norm_num)

/-- Claim C4: no evaluator validates or clamps its input.  In the IEEE float
abstraction (`none` = non-finite): SA < -32 (negative square-root argument)
makes every `ss`-dependent output of all four evaluators non-finite; SA = -32
(`ss = 0`) makes `b` of both density evaluators and `beta` of both
specific-volume evaluators non-finite; and for SA > -32 every output equals the
unaltered real-arithmetic value of the corresponding formula (for `alpha` and
`beta` whenever the computed `specvol` denominator is nonzero). -/
theorem ieee_nonfinite_propagation (SA CT p : ℝ) :
    (SA < -32 →
      bsqRhoF SA CT p = none ∧ bsqAF SA CT p = none ∧ bsqBF SA CT p = none ∧
      bsqRF SA CT p = none ∧
      stifRhoF SA CT p = none ∧ stifAF SA CT p = none ∧ stifBF SA CT p = none ∧
      stifRdotF SA CT p = none ∧
      v55SpecvolF SA CT p = none ∧ v55AlphaF SA CT p = none ∧
      v55BetaF SA CT p = none ∧ v55DeltaF SA CT p = none ∧
      v75SpecvolF SA CT p = none ∧ v75AlphaF SA CT p = none ∧
      v75BetaF SA CT p = none ∧ v75DeltaF SA CT p = none) ∧
    (SA = -32 →
      bsqBF SA CT p = none ∧ stifBF SA CT p = none ∧
      v55BetaF SA CT p = none ∧ v75BetaF SA CT p = none) ∧
    (-32 < SA →
      bsqRhoF SA CT p = some ((polyTEOS10_bsq SA CT p).rho) ∧
      bsqAF SA CT p = some ((polyTEOS10_bsq SA CT p).a) ∧
      bsqBF SA CT p = some ((polyTEOS10_bsq SA CT p).b) ∧
      bsqRF SA CT p = some ((polyTEOS10_bsq SA CT p).r) ∧
      stifRhoF SA CT p = some ((polyTEOS10_stif SA CT p).rho) ∧
      stifAF SA CT p = some ((polyTEOS10_stif SA CT p).a) ∧
      stifBF SA CT p = some ((polyTEOS10_stif SA CT p).b) ∧
      stifRdotF SA CT p = some ((polyTEOS10_stif SA CT p).rdot) ∧
      v55SpecvolF SA CT p = some ((polyTEOS10_55t SA CT p).specvol) ∧
      v55DeltaF SA CT p = some ((polyTEOS10_55t SA CT p).delta) ∧
      v75SpecvolF SA CT p = some ((polyTEOS10_75t SA CT p).specvol) ∧
      v75DeltaF SA CT p = some ((polyTEOS10_75t SA CT p).delta) ∧
      ((polyTEOS10_55t SA CT p).specvol ≠ 0 →
        v55AlphaF SA CT p = some ((polyTEOS10_55t SA CT p).alpha) ∧
        v55BetaF SA CT p = some ((polyTEOS10_55t SA CT p).beta)) ∧
      ((polyTEOS10_75t SA CT p).specvol ≠ 0 →
        v75AlphaF SA CT p = some ((polyTEOS10_75t SA CT p).alpha) ∧
        v75BetaF SA CT p = some ((polyTEOS10_75t SA CT p).beta))) := by
  have hSAu : (0:ℝ) < SAu := by norm_num [SAu]
  refine ⟨fun h => ?_, fun h => ?_, fun h => ?_⟩
  · have harg : (SA + deltaS)/SAu < 0 :=
      div_neg_of_neg_of_pos (by rw [deltaS]; linarith) hSAu
    have hss : ssF SA = none := by rw [ssF, if_pos harg]
    exact ⟨by simp [bsqRhoF, hss], by simp [bsqAF, hss], by simp [bsqBF, hss],
      by simp [bsqRF, hss], by simp [stifRhoF, hss], by simp [stifAF, hss],
      by simp [stifBF, hss], by simp [stifRdotF, hss],
      by simp [v55SpecvolF, hss], by simp [v55AlphaF, hss],
      by simp [v55BetaF, hss], by simp [v55DeltaF, hss],
      by simp [v75SpecvolF, hss], by simp [v75AlphaF, hss],
      by simp [v75BetaF, hss], by simp [v75DeltaF, hss]⟩
  · subst h
    have harg0 : ((-32:ℝ) + deltaS)/SAu = 0 := by rw [deltaS]; norm_num
    have hss : ssF (-32) = some 0 := by
      rw [ssF, harg0]
      simp [Real.sqrt_zero]
    exact ⟨by simp [bsqBF, hss], by simp [stifBF, hss],
      by simp [v55BetaF, hss], by simp [v75BetaF, hss]⟩
  · have harg : 0 < (SA + deltaS)/SAu :=
      div_pos (by rw [deltaS]; linarith) hSAu
    have hss : ssF SA = some (ss SA) := by
      rw [ssF, if_neg (not_lt.2 harg.le)]; rfl
    have hsspos : 0 < ss SA := by rw [ss]; exact Real.sqrt_pos.2 harg
    refine ⟨?_, ?_, ?_, ?_, ?_, ?_, ?_, ?_, ?_, ?_, ?_, ?_, fun hv => ⟨?_, ?_⟩,
      fun hv => ⟨?_, ?_⟩⟩
    · simp only [bsqRhoF, hss, Option.map_some']; rfl
    · simp only [bsqAF, hss, Option.map_some']; rfl
    · simp only [bsqBF, hss, Option.some_bind, if_neg hsspos.ne']; rfl
    · simp only [bsqRF, hss, Option.map_some']; rfl
    · simp only [stifRhoF, hss, Option.map_some']; rfl
    · simp only [stifAF, hss, Option.map_some']; rfl
    · simp only [stifBF, hss, Option.some_bind, if_neg hsspos.ne']; rfl
    · simp only [stifRdotF, hss, Option.map_some']; rfl
    · simp only [v55SpecvolF, hss, Option.map_some']; rfl
    · simp only [v55DeltaF, hss, Option.map_some']; rfl
    · simp only [v75SpecvolF, hss, Option.map_some']; rfl
    · simp only [v75DeltaF, hss, Option.map_some']; rfl
    · have hv' : V55.v0 (pp p) + V55.delta (ss SA) (tt CT) (pp p) ≠ 0 := hv
      simp only [v55AlphaF, hss, Option.some_bind, if_neg hv']; rfl
    · have hv' : V55.v0 (pp p) + V55.delta (ss SA) (tt CT) (pp p) ≠ 0 := hv
      simp only [v55BetaF, hss, Option.some_bind, if_neg hsspos.ne', if_neg hv']; rfl
    · have hv' : V75.v0 (pp p) + V75.delta (ss SA) (tt CT) (pp p) ≠ 0 := hv
      simp only [v75AlphaF, hss, Option.some_bind, if_neg hv']; rfl
    · have hv' : V75.v0 (pp p) + V75.delta (ss SA) (tt CT) (pp p) ≠ 0 := hv
      simp only [v75BetaF, hss, Option.some_bind, if_neg hsspos.ne', if_neg hv']; rfl

/-- Witness for C4: a NaN-propagating input (SA = -33), the singular edge
(SA = -32), and an unaltered in-domain evaluation (SA = 30). -/
theorem ieee_nonfinite_propagation_witness :
    bsqRhoF (-33) 5 100 = none ∧ bsqBF (-32) 5 100 = none ∧
    bsqBF 30 10 1000 = some ((polyTEOS10_bsq 30 10 1000).b) :=
  ⟨((ieee_nonfinite_propagation (-33) 5 100).1 (by norm_num)).1,
   (((ieee_nonfinite_propagation (-32) 5 100).2).1 rfl).1,
   ((((ieee_nonfinite_propagation 30 10 1000).2).2 (by norm_num)).2.2).1⟩

/-- Claim C5: at p = 0 the reference components have the documented intercepts
for every SA and CT: `r0 = 0` for `polyTEOS10_bsq` (zero constant term) and
`r1 = 1` for `polyTEOS10_stif` (`+1` constant term). -/
theorem reference_profile_intercepts (SA CT : ℝ) :
    (polyTEOS10_bsq SA CT 0).r0 = 0 ∧ (polyTEOS10_stif SA CT 0).r1 = 1 := by
  constructor
  · show Bsq.r0 (pp 0) = 0
    rw [pp]
    norm_num [Bsq.r0]
  · show Stif.r1 (pp 0) = 1
    rw [pp]
    norm_num [Stif.r1]

/-- Claim C6: in `polyTEOS10_stif` the derivative outputs are scaled by the
reference ratio — `a = r1 * aRaw` and `b = r1 * bRaw / ss` — while in
`polyTEOS10_bsq` the output `a` is the raw polynomial unscaled and `b` is a
single division of the raw polynomial by `ss`, with no `r1` factor. -/
theorem stiffened_scaling_structure (SA CT p : ℝ) :
    (polyTEOS10_stif SA CT p).a
      = (polyTEOS10_stif SA CT p).r1 * Stif.aRaw (ss SA) (tt CT) (pp p) ∧
    (polyTEOS10_stif SA CT p).b
      = (polyTEOS10_stif SA CT p).r1 * Stif.bRaw (ss SA) (tt CT) (pp p) / ss SA ∧
    (polyTEOS10_bsq SA CT p).a = Bsq.a (ss SA) (tt CT) (pp p) ∧
    (polyTEOS10_bsq SA CT p).b = Bsq.b (ss SA) (tt CT) (pp p) / ss SA := by
  refine ⟨rfl, ?_, rfl, rfl⟩
  show Stif.bRaw (ss SA) (tt CT) (pp p) * Stif.r1 (pp p) / ss SA
      = Stif.r1 (pp p) * Stif.bRaw (ss SA) (tt CT) (pp p) / ss SA
  rw [mul_comm]

/-- Claim C7: in both specific-volume evaluators the derivative outputs are
normalized by the specific volume: `alpha = a / specvol` and
`beta = b / (ss * specvol)` with `specvol` the already-computed `v0 + delta`
sum (unlike the density evaluators, whose `a` and `b` are not divided by
`rho`). -/
theorem specvol_normalized_derivatives (SA CT p : ℝ) (h : -32 < SA) :
    (polyTEOS10_55t SA CT p).alpha
      = V55.a (ss SA) (tt CT) (pp p) / (polyTEOS10_55t SA CT p).specvol ∧
    (polyTEOS10_55t SA CT p).beta
      = V55.b (ss SA) (tt CT) (pp p) / (ss SA * (polyTEOS10_55t SA CT p).specvol) ∧
    (polyTEOS10_55t SA CT p).specvol
      = (polyTEOS10_55t SA CT p).v0 + (polyTEOS10_55t SA CT p).delta ∧
    (polyTEOS10_75t SA CT p).alpha
      = V75.a (ss SA) (tt CT) (pp p) / (polyTEOS10_75t SA CT p).specvol ∧
    (polyTEOS10_75t SA CT p).beta
      = V75.b (ss SA) (tt CT) (pp p) / (ss SA * (polyTEOS10_75t SA CT p).specvol) ∧
    (polyTEOS10_75t SA CT p).specvol
      = (polyTEOS10_75t SA CT p).v0 + (polyTEOS10_75t SA CT p).delta :=
  ⟨rfl, div_div _ _ _, rfl, rfl, div_div _ _ _, rfl⟩

/-- Witness for C7 at the concrete input SA = 30, CT = 10, p = 1000. -/
theorem specvol_normalized_derivatives_witness :
    (polyTEOS10_55t 30 10 1000).alpha
      = V55.a (ss 30) (tt 10) (pp 1000) / (polyTEOS10_55t 30 10 1000).specvol ∧
    (polyTEOS10_55t 30 10 1000).beta
      = V55.b (ss 30) (tt 10) (pp 1000) / (ss 30 * (polyTEOS10_55t 30 10 1000).specvol) ∧
    (polyTEOS10_55t 30 10 1000).specvol
      = (polyTEOS10_55t 30 10 1000).v0 + (polyTEOS10_55t 30 10 1000).delta ∧
    (polyTEOS10_75t 30 10 1000).alpha
      = V75.a (ss 30) (tt 10) (pp 1000) / (polyTEOS10_75t 30 10 1000).specvol ∧
    (polyTEOS10_75t 30 10 1000).beta
      = V75.b (ss 30) (tt 10) (pp 1000) / (ss 30 * (polyTEOS10_75t 30 10 1000).specvol) ∧
    (polyTEOS10_75t 30 10 1000).specvol
      = (polyTEOS10_75t 30 10 1000).v0 + (polyTEOS10_75t 30 10 1000).delta :=
  specvol_normalized_derivatives 30 10 1000 (by norm_num)

/-- Claim C8: the reference output of each evaluator (`r0`, `r1`, `v0`) depends
only on the pressure argument: two calls with the same `p` and arbitrary
different SA and CT return the same reference component. -/
theorem reference_depends_only_on_p (SA₁ CT₁ SA₂ CT₂ p : ℝ) :
    (polyTEOS10_bsq SA₁ CT₁ p).r0 = (polyTEOS10_bsq SA₂ CT₂ p).r0 ∧
    (polyTEOS10_stif SA₁ CT₁ p).r1 = (polyTEOS10_stif SA₂ CT₂ p).r1 ∧
    (polyTEOS10_55t SA₁ CT₁ p).v0 = (polyTEOS10_55t SA₂ CT₂ p).v0 ∧
    (polyTEOS10_75t SA₁ CT₁ p).v0 = (polyTEOS10_75t SA₂ CT₂ p).v0 :=
  ⟨rfl, rfl, rfl, rfl⟩

/-- Claim C9: the `v0` returned by `polyTEOS10_55t` equals the `v0` returned by
`polyTEOS10_75t` on every input — both use the same six `V00..V05` coefficients
and the identical Horner nesting. -/
theorem v0_shared_55_75 (SA CT p : ℝ) :
    (polyTEOS10_55t SA CT p).v0 = (polyTEOS10_75t SA CT p).v0 := rfl

/-- Claim C10: at SA = -32 exactly (`ss = 0`), every output of the two density
evaluators except `b` is a finite, well-defined value in the IEEE float
abstraction: `rho`, `a`, `r0`, `r` of `polyTEOS10_bsq` and `rho`, `a`, `r1`,
`rdot` of `polyTEOS10_stif` are `some` of the corresponding real polynomial
value, while the division by `ss = 0` makes `b` non-finite in both. -/
theorem density_outputs_finite_at_minus32 (CT p : ℝ) :
    bsqRhoF (-32) CT p = some ((polyTEOS10_bsq (-32) CT p).rho) ∧
    bsqAF (-32) CT p = some ((polyTEOS10_bsq (-32) CT p).a) ∧
    bsqR0F p = some ((polyTEOS10_bsq (-32) CT p).r0) ∧
    bsqRF (-32) CT p = some ((polyTEOS10_bsq (-32) CT p).r) ∧
    stifRhoF (-32) CT p = some ((polyTEOS10_stif (-32) CT p).rho) ∧
    stifAF (-32) CT p = some ((polyTEOS10_stif (-32) CT p).a) ∧
    stifR1F p = some ((polyTEOS10_stif (-32) CT p).r1) ∧
    stifRdotF (-32) CT p = some ((polyTEOS10_stif (-32) CT p).rdot) ∧
    bsqBF (-32) CT p = none ∧ stifBF (-32) CT p = none := by
  have harg0 : ((-32:ℝ) + deltaS)/SAu = 0 := by rw [deltaS]; norm_num
  have hss : ssF (-32) = some (ss (-32)) := by
    rw [ssF, if_neg (by rw [harg0]; exact lt_irrefl 0)]; rfl
  have hs0 : ss (-32) = 0 := by rw [ss, harg0, Real.sqrt_zero]
  refine ⟨?_, ?_, rfl, ?_, ?_, ?_, rfl, ?_, ?_, ?_⟩
  · simp only [bsqRhoF, hss, Option.map_some']; rfl
  · simp only [bsqAF, hss, Option.map_some']; rfl
  · simp only [bsqRF, hss, Option.map_some']; rfl
  · simp only [stifRhoF, hss, Option.map_some']; rfl
  · simp only [stifAF, hss, Option.map_some']; rfl
  · simp only [stifRdotF, hss, Option.map_some']; rfl
  · simp only [bsqBF, hss, Option.some_bind, if_pos hs0]
  · simp only [stifBF, hss, Option.some_bind, if_pos hs0]


end PolyTEOS10
